import Mathlib

/-!
Verification of the message-processing core of the Clinetastic repository.

Each namespace embeds one component, translated from the TypeScript source:

* `Tokens`       — `estimateTokens` from `src/utils/tokens.ts` (second, enhanced variant,
                   lines 29–49).
* `SlidingWindow`— `truncateConversation` from `src/core/sliding-window/index.ts`.
* `Adaptive`     — plan generation / strategy merging / retry loop from
                   `src/core/message-processing/adaptive/AdaptiveEngine.ts`.
* `Pipeline`     — stage organisation of the `EnhancedPipeline` variants.
* `Compression`  — `ContextCompressionStage` from
                   `src/core/message-processing/stages/EnhancedValidationStage.ts`.
* `Processor`    — `EnhancedMessageProcessor.executeTool` together with the
                   `ErrorHandlingService` it consults.

JavaScript `number` arithmetic is modelled exactly over `ℚ` (or, where every
intermediate value is a natural scaled by 10, over `ℕ`); 32-bit coercions
(`x & x`, `x << 5`) are modelled with explicit wrap-around on `ℤ`.
-/

namespace Tokens

/-- Character class of the JavaScript `\\s` regex escape (whitespace):
ASCII whitespace and the Unicode space characters (NBSP, Ogham space,
U+2000-200A, line/paragraph separators, narrow/medium/ideographic space, BOM). -/
def isWs (c : Char) : Bool :=
  c = ' ' || c = '\t' || c = '\n' || c = '\r' || c = '\u000b' || c = '\u000c' ||
  c = '\u00a0' || c = '\u1680' || ('\u2000' ≤ c && c ≤ '\u200a') ||
  c = '\u2028' || c = '\u2029' || c = '\u202f' || c = '\u205f' ||
  c = '\u3000' || c = '\ufeff'

/-- ASCII decimal digit, the `\d` class. -/
def isDigitCh (c : Char) : Bool := '0' ≤ c && c ≤ '9'

/-- ASCII letter. -/
def isAlphaCh (c : Char) : Bool := ('a' ≤ c && c ≤ 'z') || ('A' ≤ c && c ≤ 'Z')

/-- The `\w` class used by the `\b` word-boundary assertion: `[A-Za-z0-9_]`. -/
def isWordCh (c : Char) : Bool := isAlphaCh c || isDigitCh c || c = '_'

/-- Character matched by `[^a-zA-Z0-9\s]` (the "special characters" count). -/
def isSpecialCh (c : Char) : Bool := !(isAlphaCh c || isDigitCh c || isWs c)

/-- Counts maximal runs of characters satisfying `p`; `prev` records whether the
previous character satisfied `p`.  `text.split(/\s+/).filter(Boolean).length`
equals `countRuns (fun c => !isWs c)`. -/
def countRunsAux (p : Char → Bool) (prev : Bool) : List Char → Nat
  | [] => 0
  | c :: cs => (if p c && !prev then 1 else 0) + countRunsAux p (p c) cs

def countRuns (p : Char → Bool) (s : List Char) : Nat := countRunsAux p false s

/-- `Math.ceil(len / 2.5)` for a digit run of length `len` (exact on naturals). -/
def numCost (len : Nat) : Nat := (2 * len + 4) / 5

/-- Folds over the string accumulating `Math.ceil(run/2.5)` for every maximal
digit run; `cur` is the length of the digit run in progress. -/
def numRunsAux (cur : Nat) : List Char → Nat
  | [] => numCost cur
  | c :: cs => if isDigitCh c then numRunsAux (cur + 1) cs else numCost cur + numRunsAux 0 cs

/-- Total of `Math.ceil(num.length / 2.5)` over the matches of `/\d+/g`. -/
def numbersCost (s : List Char) : Nat := numRunsAux 0 s

/-- The keyword alternatives of `/\b(function|const|let|var|return|if|else|for|while)\b/g`. -/
def jsKeywords : List (List Char) :=
  ["function".data, "const".data, "let".data, "var".data, "return".data,
   "if".data, "else".data, "for".data, "while".data]

/-- Does keyword `k` match at the head of `s`, including the trailing `\b`
(end of string, or a non-word character right after the keyword)? -/
def kwMatch : List Char → List Char → Bool
  | [], [] => true
  | [], c :: _ => !isWordCh c
  | _ :: _, [] => false
  | k :: ks, c :: cs => k = c && kwMatch ks cs

/-- Number of keywords matching at the current position. -/
def kwHere (ks : List (List Char)) (s : List Char) : Nat :=
  (ks.filter (fun k => kwMatch k s)).length

/-- Scans the string counting keyword occurrences with word boundaries on both
sides; `prevWord` records whether the previous character was a word character
(the leading `\b`). -/
def kwAux (ks : List (List Char)) (prevWord : Bool) : List Char → Nat
  | [] => 0
  | c :: cs => (if !prevWord then kwHere ks (c :: cs) else 0) + kwAux ks (isWordCh c) cs

def keywordCount (s : List Char) : Nat := kwAux jsKeywords false s

/-- The raw estimate of `estimateTokens` before the final `Math.ceil`, scaled by
10 so that it is a natural number: `words * 1.3` contributes `13` per word,
number runs contribute `10 * ceil(len/2.5)`, special characters and keywords
contribute `0.5` (= 5 scaled) each. -/
def rawEstimate10 (s : List Char) : Nat :=
  13 * countRuns (fun c => !isWs c) s + 10 * numbersCost s +
    5 * s.countP (fun c => isSpecialCh c) + 5 * keywordCount s

/-- `estimateTokens` from `src/utils/tokens.ts` (lines 29–49): the empty-string
guard, then `Math.ceil` of the accumulated estimate. -/
def estimateTokens (s : String) : Nat :=
  if s.data = [] then 0 else (rawEstimate10 s.data + 9) / 10

end Tokens


namespace Tokens

theorem countRunsAux_append_sep (p : Char → Bool) (sep : Char) (hsep : p sep = false)
    (b : List Char) :
    ∀ (a : List Char) (prev : Bool),
      countRunsAux p prev (a ++ sep :: b) = countRunsAux p prev a + countRunsAux p false b := by
  intro a
  induction a with
  | nil => intro prev; simp [countRunsAux, hsep]
  | cons c cs ih =>
      intro prev
      simp only [List.cons_append, countRunsAux, List.append_eq, ih (p c)]
      omega

theorem numRunsAux_append_sep (sep : Char) (hsep : isDigitCh sep = false) (b : List Char) :
    ∀ (a : List Char) (cur : Nat),
      numRunsAux cur (a ++ sep :: b) = numRunsAux cur a + numRunsAux 0 b := by
  intro a
  induction a with
  | nil => intro cur; simp [numRunsAux, hsep]
  | cons c cs ih =>
      intro cur
      by_cases h : isDigitCh c
      · simp only [List.cons_append, numRunsAux, List.append_eq, h, if_true, ih]
      · simp only [List.cons_append, numRunsAux, List.append_eq, h, Bool.false_eq_true,
          if_false, ih]
        omega

theorem kwMatch_append_sep (sep : Char) (hsep : isWordCh sep = false) (v : List Char) :
    ∀ (k u : List Char), (∀ c ∈ k, isWordCh c = true) →
      kwMatch k (u ++ sep :: v) = kwMatch k u := by
  intro k
  induction k with
  | nil =>
      intro u _
      cases u with
      | nil => simp [kwMatch, hsep]
      | cons c cs => simp [kwMatch]
  | cons x xs ih =>
      intro u hk
      cases u with
      | nil =>
          have hx : isWordCh x = true := hk x (List.mem_cons_self _ _)
          have hxs : x ≠ sep := by
            intro he; rw [he, hsep] at hx; exact Bool.noConfusion hx
          simp [kwMatch, hxs]
      | cons c cs =>
          simp only [List.cons_append, kwMatch, List.append_eq]
          rw [ih cs (fun d hd => hk d (List.mem_cons_of_mem _ hd))]

theorem kwHere_sep_zero (ks : List (List Char)) (sep : Char)
    (hne : ∀ k ∈ ks, k ≠ [])
    (hsepw : ∀ k ∈ ks, ∀ c ∈ k, c ≠ sep) (v : List Char) :
    kwHere ks (sep :: v) = 0 := by
  unfold kwHere
  rw [List.length_eq_zero, List.filter_eq_nil_iff]
  intro k hkks
  cases k with
  | nil => exact absurd rfl (hne [] hkks)
  | cons x xs =>
      have hx : x ≠ sep := hsepw _ hkks x (List.mem_cons_self _ _)
      simp [kwMatch, hx]

theorem kwAux_append_sep (ks : List (List Char)) (sep : Char) (hsep : isWordCh sep = false)
    (hne : ∀ k ∈ ks, k ≠ []) (hw : ∀ k ∈ ks, ∀ c ∈ k, isWordCh c = true)
    (hsepw : ∀ k ∈ ks, ∀ c ∈ k, c ≠ sep) (b : List Char) :
    ∀ (a : List Char) (prev : Bool),
      kwAux ks prev (a ++ sep :: b) = kwAux ks prev a + kwAux ks false b := by
  intro a
  induction a with
  | nil =>
      intro prev
      simp only [List.nil_append, kwAux, hsep]
      rw [kwHere_sep_zero ks sep hne hsepw b]
      simp
  | cons c cs ih =>
      intro prev
      have hh : kwHere ks (c :: (cs ++ sep :: b)) = kwHere ks (c :: cs) := by
        unfold kwHere
        congr 1
        apply List.filter_congr
        intro k hkks
        have he : (c :: cs) ++ sep :: b = c :: (cs ++ sep :: b) := by simp
        rw [← he, kwMatch_append_sep sep hsep b k (c :: cs) (hw k hkks)]
      simp only [List.cons_append, kwAux, List.append_eq, ih (isWordCh c), hh]
      omega

theorem rawEstimate10_append_space (a b : List Char) :
    rawEstimate10 (a ++ ' ' :: b) = rawEstimate10 a + rawEstimate10 b := by
  unfold rawEstimate10 countRuns numbersCost keywordCount
  rw [countRunsAux_append_sep _ ' ' (by decide) b a false]
  rw [numRunsAux_append_sep ' ' (by decide) b a 0]
  rw [kwAux_append_sep jsKeywords ' ' (by decide) (by decide) (by decide) (by decide) b a false]
  rw [List.countP_append]
  have hsp : isSpecialCh ' ' = false := by decide
  simp [List.countP_cons, hsp]
  ring

/-- **C9.**  `estimateTokens` returns 0 on the empty string, and appending
`" " ++ b` for a nonempty `b` never decreases the estimate. -/
theorem estimateTokens_empty_and_monotone :
    estimateTokens "" = 0 ∧
      ∀ (a b : String), b ≠ "" → estimateTokens a ≤ estimateTokens (a ++ " " ++ b) := by
  constructor
  · rfl
  · intro a b _
    have hdata : (a ++ " " ++ b).data = a.data ++ ' ' :: b.data := by
      simp [String.data_append]
    by_cases ha : a.data = []
    · simp [estimateTokens, ha]
    · have hne : (a ++ " " ++ b).data ≠ [] := by
        rw [hdata]
        simp [ha]
      rw [estimateTokens, estimateTokens, if_neg ha, if_neg hne, hdata,
        rawEstimate10_append_space]
      apply Nat.div_le_div_right
      omega

/-- Witness for C9 at concrete strings. -/
theorem estimateTokens_empty_and_monotone_witness :
    ("world" : String) ≠ "" ∧
      estimateTokens "hello x" ≤ estimateTokens ("hello x" ++ " " ++ "world") := by
  refine ⟨by decide, ?_⟩
  exact estimateTokens_empty_and_monotone.2 "hello x" "world" (by decide)

end Tokens

namespace Adaptive

/-- Per-tool aggregate profile (`ToolProfile` in `adaptive/types.ts`), restricted
to the numeric fields read by plan generation; JS numbers are modelled as `ℚ`. -/
structure ToolProfile where
  successRate : ℚ
  avgExecutionTime : ℚ
  resourceEfficiency : ℚ
  cacheEffectiveness : ℚ
  deriving Repr, DecidableEq

/-- `retryStrategy` component of an `OptimizationStrategy`. -/
structure RetryStrategy where
  maxRetries : ℤ
  backoffFactor : ℚ
  initialDelay : ℚ
  deriving Repr, DecidableEq

/-- `OptimizationStrategy` from `adaptive/types.ts`. -/
structure OptimizationStrategy where
  shouldCache : Bool
  cacheDuration : ℚ
  batchSize : ℤ
  timeout : ℚ
  retryStrategy : RetryStrategy
  deriving Repr, DecidableEq

/-- `AdaptiveConfig` fields read by `generateExecutionPlan`. -/
structure AdaptiveConfig where
  cacheTimeout : ℚ
  deriving Repr, DecidableEq

/-- JavaScript `x || 0.5` applied to `profile?.successRate`: `undefined` and the
falsy number `0` both yield the default `0.5`. -/
def successRateOrHalf (profile : Option ToolProfile) : ℚ :=
  match profile with
  | none => 1/2
  | some p => if p.successRate = 0 then 1/2 else p.successRate

/-- `AdaptiveEngine.calculateOptimalBatchSize` (AdaptiveEngine.ts lines 140–148). -/
def calculateOptimalBatchSize (profile : Option ToolProfile) : ℤ :=
  match profile with
  | none => 1
  | some p => max 1 ⌊5 * p.resourceEfficiency * p.successRate⌋

/-- `AdaptiveEngine.calculateOptimalTimeout` (AdaptiveEngine.ts lines 150–157). -/
def calculateOptimalTimeout (profile : Option ToolProfile) : ℚ :=
  match profile with
  | none => 30000
  | some p =>
      let baseTimeout := p.avgExecutionTime * 2
      let reliabilityFactor := 1 + (1 - p.successRate)
      min (max (baseTimeout * reliabilityFactor) 5000) 60000

/-- The `strategy` part of `AdaptiveEngine.generateExecutionPlan`
(AdaptiveEngine.ts lines 100–138). -/
def generatePlanStrategy (profile : Option ToolProfile) (config : AdaptiveConfig) :
    OptimizationStrategy :=
  { shouldCache := match profile with
      | some p => p.cacheEffectiveness > 7/10
      | none => false
    cacheDuration := min
      (match profile with
        | some p => p.avgExecutionTime * 10
        | none => config.cacheTimeout)
      config.cacheTimeout
    batchSize := calculateOptimalBatchSize profile
    timeout := calculateOptimalTimeout profile
    retryStrategy :=
      { maxRetries := ⌈(3 : ℚ) * (1 - successRateOrHalf profile)⌉
        backoffFactor := 3/2
        initialDelay := 1000 } }

/-- `EnhancedAdaptiveProcessor.mergeStrategies` (AdaptiveEngine.ts lines 379–400). -/
def mergeStrategies (planStrategy resourceStrategy : OptimizationStrategy) :
    OptimizationStrategy :=
  { shouldCache := planStrategy.shouldCache || resourceStrategy.shouldCache
    cacheDuration := min planStrategy.cacheDuration resourceStrategy.cacheDuration
    batchSize := min planStrategy.batchSize resourceStrategy.batchSize
    timeout := max planStrategy.timeout resourceStrategy.timeout
    retryStrategy :=
      { maxRetries := min planStrategy.retryStrategy.maxRetries
          resourceStrategy.retryStrategy.maxRetries
        backoffFactor := max planStrategy.retryStrategy.backoffFactor
          resourceStrategy.retryStrategy.backoffFactor
        initialDelay := max planStrategy.retryStrategy.initialDelay
          resourceStrategy.retryStrategy.initialDelay } }

/-- One result of the external tool's `execute`, abstracted: attempt number ↦
success or a thrown error message. -/
def ExecBehavior := Nat → Except String String

/-- The `while (attempt < maxRetries)` loop of
`EnhancedAdaptiveProcessor.executeWithStrategy` (AdaptiveEngine.ts lines
402–451), instrumented with the number of `tool.execute` invocations made.
`fuel` is the number of remaining loop iterations (`maxRetries - attempt`),
`calls` the attempts already made, `last` the last caught error. -/
def executeLoop (execB : ExecBehavior) : Nat → Nat → Option String →
    Except String String × Nat
  | 0, calls, last => (Except.error (last.getD "Maximum retry attempts exceeded"), calls)
  | fuel + 1, calls, last =>
      match execB calls with
      | Except.ok r => (Except.ok r, calls + 1)
      | Except.error e => executeLoop execB fuel (calls + 1) (some e)

/-- `executeWithStrategy`: run the retry loop with the strategy's retry budget;
a non-positive `maxRetries` means the loop body never runs and the final
`throw lastError || new Error("Maximum retry attempts exceeded")` fires. -/
def executeWithStrategy (execB : ExecBehavior) (strategy : OptimizationStrategy) :
    Except String String × Nat :=
  executeLoop execB strategy.retryStrategy.maxRetries.toNat 0 none

/-- The tool path of `EnhancedAdaptiveProcessor.process`: a thrown error from
`executeWithStrategy` is caught and converted to a failed `ProcessingResult`. -/
def processToolPath (execB : ExecBehavior) (strategy : OptimizationStrategy) :
    (Bool × String × Option String) × Nat :=
  match executeWithStrategy execB strategy with
  | (Except.ok r, n) => ((true, r, none), n)
  | (Except.error e, n) => ((false, "", some e), n)

/-- **C10.**  For every profile state (present or absent), the generated plan's
timeout lies in `[5000, 60000]` ms and its batch size is at least 1. -/
theorem plan_timeout_and_batch_bounds (profile : Option ToolProfile)
    (config : AdaptiveConfig) :
    5000 ≤ (generatePlanStrategy profile config).timeout ∧
      (generatePlanStrategy profile config).timeout ≤ 60000 ∧
      1 ≤ (generatePlanStrategy profile config).batchSize := by
  have htimeout : (generatePlanStrategy profile config).timeout =
      calculateOptimalTimeout profile := rfl
  have hbatch : (generatePlanStrategy profile config).batchSize =
      calculateOptimalBatchSize profile := rfl
  rw [htimeout, hbatch]
  cases profile with
  | none =>
      refine ⟨by norm_num [calculateOptimalTimeout], by norm_num [calculateOptimalTimeout], ?_⟩
      simp [calculateOptimalBatchSize]
  | some p =>
      refine ⟨?_, ?_, ?_⟩
      · unfold calculateOptimalTimeout
        exact le_min (le_max_right _ _) (by norm_num)
      · unfold calculateOptimalTimeout
        exact min_le_right _ _
      · unfold calculateOptimalBatchSize
        exact le_max_left _ _

/-- Witness for C10 at the absent-profile case. -/
theorem plan_timeout_and_batch_bounds_witness :
    5000 ≤ (generatePlanStrategy none (AdaptiveConfig.mk 300000)).timeout ∧
      (generatePlanStrategy none (AdaptiveConfig.mk 300000)).timeout ≤ 60000 ∧
      1 ≤ (generatePlanStrategy none (AdaptiveConfig.mk 300000)).batchSize :=
  plan_timeout_and_batch_bounds none (AdaptiveConfig.mk 300000)

/-- **C4.**  If a tool's profile records success rate 1, the adaptive plan's
retry budget `ceil(3 * (1 - successRate))` is 0, so the merged strategy's
budget is at most 0 whatever the resource optimizer proposes, and
`process` returns a failed result with error `"Maximum retry attempts
exceeded"` without ever invoking `tool.execute`. -/
theorem allSuccess_profile_never_executes (p : ToolProfile) (config : AdaptiveConfig)
    (resourceStrategy : OptimizationStrategy) (execB : ExecBehavior)
    (hrate : p.successRate = 1) :
    (mergeStrategies (generatePlanStrategy (some p) config)
        resourceStrategy).retryStrategy.maxRetries.toNat = 0 ∧
      processToolPath execB
        (mergeStrategies (generatePlanStrategy (some p) config) resourceStrategy) =
        ((false, "", some "Maximum retry attempts exceeded"), 0) := by
  have hplan : (generatePlanStrategy (some p) config).retryStrategy.maxRetries = 0 := by
    show ⌈(3 : ℚ) * (1 - successRateOrHalf (some p))⌉ = 0
    simp [successRateOrHalf, hrate]
  have hmerged : (mergeStrategies (generatePlanStrategy (some p) config)
      resourceStrategy).retryStrategy.maxRetries ≤ 0 := by
    show min (generatePlanStrategy (some p) config).retryStrategy.maxRetries
      resourceStrategy.retryStrategy.maxRetries ≤ 0
    rw [hplan]
    exact min_le_left _ _
  have htoNat : (mergeStrategies (generatePlanStrategy (some p) config)
      resourceStrategy).retryStrategy.maxRetries.toNat = 0 := Int.toNat_of_nonpos hmerged
  refine ⟨htoNat, ?_⟩
  unfold processToolPath executeWithStrategy
  rw [htoNat]
  rfl

/-- Witness for C4 at a concrete all-successful profile. -/
theorem allSuccess_profile_never_executes_witness :
    (ToolProfile.mk 1 100 1 0).successRate = 1 ∧
      processToolPath (fun _ => Except.ok "ran")
        (mergeStrategies
          (generatePlanStrategy (some (ToolProfile.mk 1 100 1 0)) (AdaptiveConfig.mk 300000))
          (OptimizationStrategy.mk false 300000 5 30000 (RetryStrategy.mk 3 (3/2) 1000))) =
        ((false, "", some "Maximum retry attempts exceeded"), 0) :=
  ⟨rfl, (allSuccess_profile_never_executes (ToolProfile.mk 1 100 1 0)
      (AdaptiveConfig.mk 300000)
      (OptimizationStrategy.mk false 300000 5 30000 (RetryStrategy.mk 3 (3/2) 1000))
      (fun _ => Except.ok "ran") rfl).2⟩

end Adaptive

namespace SlidingWindow

/-- `ChunkMetadata` relevance fields read by the sliding window. -/
structure ChunkMetadata where
  relevanceScore : Option ℚ
  semanticGroup : Option String
  deriving Repr, DecidableEq

/-- A conversation message (`Anthropic.Messages.MessageParam` plus optional
chunk metadata).  The content payload is irrelevant to truncation and is kept
as an opaque string. -/
structure Msg where
  role : String
  content : String
  metadata : Option ChunkMetadata
  deriving Repr, DecidableEq

/-- The merged options record (`DEFAULT_OPTIONS` overridden by the caller). -/
structure WindowOptions where
  maxSize : ℚ
  minRelevanceScore : ℚ
  preserveGroups : List String
  deriving Repr, DecidableEq

def DEFAULT_OPTIONS : WindowOptions :=
  { maxSize := 50, minRelevanceScore := 3/10, preserveGroups := ["code", "test"] }

/-- `m.metadata?.relevanceScore || 0` (undefined and 0 both give 0). -/
def relScore (m : Option Msg) : ℚ :=
  ((m.bind Msg.metadata).bind ChunkMetadata.relevanceScore).getD 0

/-- `m.metadata?.semanticGroup || ""`. -/
def semGroup (m : Option Msg) : String :=
  ((m.bind Msg.metadata).bind ChunkMetadata.semanticGroup).getD ""

/-- The preservation test of the first pass of `truncateConversation`
(`src/core/sliding-window/index.ts` lines 46–52). -/
def shouldPreserve (userMsg assistantMsg : Option Msg) (opts : WindowOptions) : Bool :=
  decide (opts.minRelevanceScore ≤ relScore userMsg) ||
  decide (opts.minRelevanceScore ≤ relScore assistantMsg) ||
  opts.preserveGroups.contains (semGroup userMsg) ||
  opts.preserveGroups.contains (semGroup assistantMsg)

/-- The odd indices `1, 3, 5, …` strictly below `len - 1`: the loop counters of
both passes of `truncateConversation`. -/
def pairIdx (len : Nat) : List Nat := (List.range ((len - 1) / 2)).map (fun j => 2 * j + 1)

/-- One iteration of the second pass (lines 62–70): keep the pair at `i` when it
fits in `maxSize` and is either preserved or recent (`i >= len - 6`). -/
def windowStep (messages : List Msg) (opts : WindowOptions)
    (st : Nat × List (Option Msg)) (i : Nat) : Nat × List (Option Msg) :=
  if decide ((st.1 : ℚ) + 2 ≤ opts.maxSize) &&
      (shouldPreserve (messages.get? i) (messages.get? (i + 1)) opts ||
        decide (messages.length - 6 ≤ i)) then
    (st.1 + 2, st.2 ++ [messages.get? i, messages.get? (i + 1)])
  else st

/-- The list built by the two passes of `truncateConversation`, before the
final parity `pop`. -/
def truncBody (messages : List Msg) (opts : WindowOptions) : List (Option Msg) :=
  ((pairIdx messages.length).foldl (windowStep messages opts) (1, [messages.get? 0])).2

/-- `truncateConversation` from `src/core/sliding-window/index.ts` (lines
26–78).  The JS function starts from `[messages[0]]` (an `undefined` entry when
the input is empty, hence the `Option` elements), walks the odd indices adding
whole (user, assistant) pairs under the `maxSize` guard, and finally pops one
element when the result length is even. -/
def truncateConversation (messages : List Msg) (opts : WindowOptions) :
    List (Option Msg) :=
  if (truncBody messages opts).length % 2 = 0 then (truncBody messages opts).dropLast
  else truncBody messages opts

theorem pairIdx_mem {len i : Nat} (h : i ∈ pairIdx len) : i % 2 = 1 ∧ i + 1 < len := by
  unfold pairIdx at h
  rcases List.mem_map.1 h with ⟨j, hj, rfl⟩
  rw [List.mem_range] at hj
  constructor
  · omega
  · have : (len - 1) / 2 * 2 ≤ len - 1 := Nat.div_mul_le_self _ _
    omega

/-- Invariant carried through the second pass. -/
def WindowInv (messages : List Msg) (opts : WindowOptions)
    (st : Nat × List (Option Msg)) : Prop :=
  st.1 = st.2.length ∧ st.2.length % 2 = 1 ∧ st.2.head? = some (messages.get? 0) ∧
    (st.2.length = 1 ∨
      ((st.2.length : ℚ) ≤ opts.maxSize ∧
        ∃ i, i % 2 = 1 ∧ i + 1 < messages.length ∧
          st.2.drop (st.2.length - 2) = [messages.get? i, messages.get? (i + 1)]))

theorem windowStep_inv (messages : List Msg) (opts : WindowOptions)
    (st : Nat × List (Option Msg)) (i : Nat) (hi : i % 2 = 1 ∧ i + 1 < messages.length)
    (h : WindowInv messages opts st) :
    WindowInv messages opts (windowStep messages opts st i) := by
  obtain ⟨hsz, hodd, hhead, _⟩ := h
  unfold windowStep
  by_cases hk : (decide ((st.1 : ℚ) + 2 ≤ opts.maxSize) &&
      (shouldPreserve (messages.get? i) (messages.get? (i + 1)) opts ||
        decide (messages.length - 6 ≤ i))) = true
  · rw [if_pos hk]
    have hle : ((st.1 : ℚ) + 2 ≤ opts.maxSize) := by
      rw [Bool.and_eq_true] at hk
      exact of_decide_eq_true hk.1
    have hne : st.2 ≠ [] := by
      intro hnil; rw [hnil] at hhead; exact Option.noConfusion hhead
    refine ⟨by simp [hsz], by simp; omega, ?_, Or.inr ⟨?_, i, hi.1, hi.2, ?_⟩⟩
    · show (st.2 ++ [messages.get? i, messages.get? (i + 1)]).head? = some (messages.get? 0)
      rw [List.head?_append_of_ne_nil _ hne]
      exact hhead
    · show ((st.2 ++ [messages.get? i, messages.get? (i + 1)]).length : ℚ) ≤ opts.maxSize
      have hl : (st.2 ++ [messages.get? i, messages.get? (i + 1)]).length = st.2.length + 2 := by
        simp
      rw [hl]
      rw [← hsz] at *
      push_cast at hle ⊢
      linarith
    · have hlen : (st.2 ++ [messages.get? i, messages.get? (i + 1)]).length - 2 =
          st.2.length := by simp
      rw [hlen, List.drop_left]
  · rw [if_neg hk]
    exact ⟨hsz, hodd, hhead, ‹_›⟩

theorem window_fold_inv (messages : List Msg) (opts : WindowOptions) :
    ∀ (l : List Nat), (∀ i ∈ l, i % 2 = 1 ∧ i + 1 < messages.length) →
      ∀ st, WindowInv messages opts st →
        WindowInv messages opts (l.foldl (windowStep messages opts) st) := by
  intro l
  induction l with
  | nil => intro _ st h; exact h
  | cons i t ih =>
      intro hall st h
      exact ih (fun j hj => hall j (List.mem_cons_of_mem _ hj)) _
        (windowStep_inv messages opts st i (hall i (List.mem_cons_self _ _)) h)

/-- **C5 (amended).**  For a nonempty input and `maxSize ≥ 1`, the output keeps
the first input message at its head, has at most `maxSize` elements, has odd
length (it is the root message plus whole (user, assistant) pairs), and when
longer than one message it ends with a complete adjacent pair of the input —
never a dangling unpaired message. -/
theorem truncateConversation_window_invariant (messages : List Msg)
    (opts : WindowOptions) (hne : messages ≠ []) (hmax : (1 : ℚ) ≤ opts.maxSize) :
    (truncateConversation messages opts).head? = some (messages.get? 0) ∧
      ((truncateConversation messages opts).length : ℚ) ≤ opts.maxSize ∧
      (truncateConversation messages opts).length % 2 = 1 ∧
      (1 < (truncateConversation messages opts).length →
        ∃ i, i % 2 = 1 ∧ i + 1 < messages.length ∧
          (truncateConversation messages opts).drop
              ((truncateConversation messages opts).length - 2) =
            [messages.get? i, messages.get? (i + 1)]) := by
  have hinv := window_fold_inv messages opts (pairIdx messages.length)
    (fun i hi => pairIdx_mem hi) (1, [messages.get? 0])
    ⟨by simp, by simp, by simp, Or.inl (by simp)⟩
  obtain ⟨hsz, hodd, hhead, hrest⟩ := hinv
  have htr : truncateConversation messages opts = truncBody messages opts := by
    unfold truncateConversation
    rw [if_neg (by unfold truncBody at *; omega)]
  unfold truncBody at *
  rw [htr]
  refine ⟨hhead, ?_, hodd, ?_⟩
  · rcases hrest with h1 | ⟨hle, _⟩
    · rw [h1]; exact_mod_cast hmax
    · exact hle
  · intro hlong
    rcases hrest with h1 | ⟨_, i, h⟩
    · omega
    · exact ⟨i, h⟩

/-- Witness for C5 (amended) at a concrete 4-message conversation. -/
theorem truncateConversation_window_invariant_witness :
    ([Msg.mk "user" "t" none, Msg.mk "user" "a" none,
        Msg.mk "assistant" "b" none, Msg.mk "user" "c" none] : List Msg) ≠ [] ∧
      (1 : ℚ) ≤ DEFAULT_OPTIONS.maxSize ∧
      (truncateConversation
          [Msg.mk "user" "t" none, Msg.mk "user" "a" none,
            Msg.mk "assistant" "b" none, Msg.mk "user" "c" none]
          DEFAULT_OPTIONS).length % 2 = 1 := by
  refine ⟨by decide, by norm_num [DEFAULT_OPTIONS], ?_⟩
  exact (truncateConversation_window_invariant _ DEFAULT_OPTIONS (by decide)
    (by norm_num [DEFAULT_OPTIONS])).2.2.1

/-- **C5 (counterexample).**  With `maxSize = 0` — a legal options value — the
output still contains the always-retained first message, so its length exceeds
`maxSize`: the claim's "never exceeds maxSize for every options value" fails. -/
theorem truncateConversation_maxSize_zero_counterexample :
    truncateConversation [Msg.mk "user" "t" none]
        { maxSize := 0, minRelevanceScore := 3/10, preserveGroups := [] } =
      [some (Msg.mk "user" "t" none)] ∧
      ¬(((truncateConversation [Msg.mk "user" "t" none]
          { maxSize := 0, minRelevanceScore := 3/10, preserveGroups := [] }).length : ℚ) ≤
        (0 : ℚ)) := by
  constructor
  · rfl
  · norm_num [truncateConversation, truncBody, pairIdx]

theorem windowStep_keep (messages : List Msg) (opts : WindowOptions)
    (st : Nat × List (Option Msg)) (i : Nat)
    (h1 : (st.1 : ℚ) + 2 ≤ opts.maxSize) (h2 : messages.length - 6 ≤ i) :
    windowStep messages opts st i =
      (st.1 + 2, st.2 ++ [messages.get? i, messages.get? (i + 1)]) := by
  unfold windowStep
  rw [decide_eq_true h1, decide_eq_true h2, Bool.or_true, Bool.true_and, if_pos rfl]

/-- **C6 (amended).**  A one-message input is returned unchanged for every
options value; an odd-length input of at most 7 messages whose length fits in
`maxSize` is returned unchanged; the empty input comes back as a single
`undefined` entry (not the empty list). -/
theorem truncateConversation_small_inputs :
    (∀ (messages : List Msg) (opts : WindowOptions), messages.length = 1 →
        truncateConversation messages opts = messages.map some) ∧
      (∀ (messages : List Msg) (opts : WindowOptions), messages.length % 2 = 1 →
        messages.length ≤ 7 → (messages.length : ℚ) ≤ opts.maxSize →
        truncateConversation messages opts = messages.map some) ∧
      (∀ opts : WindowOptions, truncateConversation [] opts = [none]) := by
  refine ⟨?_, ?_, ?_⟩
  · intro messages opts hlen
    rcases messages with _ | ⟨a, _ | ⟨b, t⟩⟩
    · simp at hlen
    · simp [truncateConversation, truncBody, pairIdx]
    · exfalso
      simp only [List.length_cons] at hlen
      omega
  · intro messages opts hodd hle hmax
    rcases messages with _ | ⟨a, _ | ⟨b, _ | ⟨c, _ | ⟨d, _ | ⟨e, _ | ⟨f, _ | ⟨g, t⟩⟩⟩⟩⟩⟩⟩
    · simp at hodd
    · simp [truncateConversation, truncBody, pairIdx]
    · simp only [List.length_cons, List.length_nil] at hodd
      omega
    · -- three messages: the single pair (1) is recent and fits
      norm_num at hmax
      unfold truncateConversation truncBody
      rw [show ([a, b, c] : List Msg).length = 3 from rfl,
        show pairIdx 3 = [1] from rfl]
      rw [List.foldl_cons, List.foldl_nil,
        windowStep_keep _ _ _ _ (by push_cast; linarith) (by simp)]
      simp [List.get?]
    · simp only [List.length_cons, List.length_nil] at hodd
      omega
    · -- five messages: pairs 1 and 3
      norm_num at hmax
      unfold truncateConversation truncBody
      rw [show ([a, b, c, d, e] : List Msg).length = 5 from rfl,
        show pairIdx 5 = [1, 3] from rfl]
      rw [List.foldl_cons,
        windowStep_keep _ _ _ _ (by push_cast; linarith) (by simp)]
      rw [List.foldl_cons, List.foldl_nil,
        windowStep_keep _ _ _ _ (by push_cast; linarith) (by simp)]
      simp [List.get?]
    · simp only [List.length_cons, List.length_nil] at hodd
      omega
    · -- seven messages: pairs 1, 3 and 5 (all recent: 7 - 6 ≤ 1)
      rcases t with _ | ⟨x, t⟩
      · norm_num at hmax
        unfold truncateConversation truncBody
        rw [show ([a, b, c, d, e, f, g] : List Msg).length = 7 from rfl,
          show pairIdx 7 = [1, 3, 5] from rfl]
        rw [List.foldl_cons,
          windowStep_keep _ _ _ _ (by push_cast; linarith) (by simp)]
        rw [List.foldl_cons,
          windowStep_keep _ _ _ _ (by push_cast; linarith) (by simp)]
        rw [List.foldl_cons, List.foldl_nil,
          windowStep_keep _ _ _ _ (by push_cast; linarith) (by simp)]
        simp [List.get?]
      · simp only [List.length_cons] at hle
        omega
  · intro opts
    simp [truncateConversation, truncBody, pairIdx]

/-- Witness for C6 (amended): a concrete 3-message input below `maxSize` is
returned unchanged. -/
theorem truncateConversation_small_inputs_witness :
    ([Msg.mk "user" "t" none, Msg.mk "user" "a" none,
        Msg.mk "assistant" "b" none] : List Msg).length % 2 = 1 ∧
      truncateConversation
          [Msg.mk "user" "t" none, Msg.mk "user" "a" none, Msg.mk "assistant" "b" none]
          DEFAULT_OPTIONS =
        [some (Msg.mk "user" "t" none), some (Msg.mk "user" "a" none),
          some (Msg.mk "assistant" "b" none)] := by
  refine ⟨by decide, ?_⟩
  exact truncateConversation_small_inputs.2.1
    [Msg.mk "user" "t" none, Msg.mk "user" "a" none, Msg.mk "assistant" "b" none]
    DEFAULT_OPTIONS (by decide) (by decide) (by norm_num [DEFAULT_OPTIONS])

/-- **C6 (counterexample).**  A two-message conversation — far below the default
`maxSize` of 50 — is *not* returned unchanged: the trailing message is dropped,
so "fewer messages than maxSize ⇒ no trimming" fails. -/
theorem truncateConversation_pair_trimmed_counterexample :
    ((2 : ℚ) < DEFAULT_OPTIONS.maxSize) ∧
      truncateConversation [Msg.mk "user" "t" none, Msg.mk "assistant" "r" none]
          DEFAULT_OPTIONS =
        [some (Msg.mk "user" "t" none)] ∧
      truncateConversation [Msg.mk "user" "t" none, Msg.mk "assistant" "r" none]
          DEFAULT_OPTIONS ≠
        [some (Msg.mk "user" "t" none), some (Msg.mk "assistant" "r" none)] := by
  refine ⟨by norm_num [DEFAULT_OPTIONS], rfl, by decide⟩

end SlidingWindow

namespace Pipeline

/-- `EnhancedPipelineStage.config` fields read by stage registration and
dependency grouping (`pipeline/types.ts`). -/
structure StageConfig where
  id : String
  priority : ℤ
  parallel : Bool
  dependencies : List String
  deriving Repr, DecidableEq

/-- `EnhancedPipeline.addStage` of the feature-complete variant
(`part_017` lines 46–84): reject a missing id, a duplicate id, or a dependency
on a stage that has not been added yet, then append the stage. -/
def addStage (stages : List StageConfig) (stage : StageConfig) :
    Except String (List StageConfig) :=
  if stage.id = "" then Except.error "Stage must have an ID"
  else if stages.any (fun s => s.id = stage.id) then
    Except.error ("Duplicate stage ID: " ++ stage.id)
  else
    match stage.dependencies.find? (fun depId => !(stages.any (fun s => s.id = depId))) with
    | some depId =>
        Except.error ("Stage " ++ stage.id ++ " depends on non-existent stage " ++ depId)
    | none => Except.ok (stages ++ [stage])

/-- `EnhancedPipeline.areDependenciesMet` (`part_017` lines 354–356). -/
def areDependenciesMet (stage : StageConfig) (executedStages : List String) : Bool :=
  stage.dependencies.all (fun dep => executedStages.contains dep)

/-- Removes the first element satisfying `p` (the `indexOf`/`splice` pair). -/
def removeFirst (p : StageConfig → Bool) : List StageConfig → List StageConfig
  | [] => []
  | s :: rest => if p s then rest else s :: removeFirst p rest

/-- The `while (remainingStages.length > 0)` loop of
`EnhancedPipeline.organizeStages` (`part_017` lines 323–352).  Dependencies are
checked against `executionPath` — the list of stages already *executed*, which
is empty when `process` starts.  `fuel` bounds the iteration count. -/
def organizeLoop (executionPath : List String) :
    Nat → List StageConfig → List (List StageConfig) →
    Except String (List (List StageConfig))
  | _, [], groups => Except.ok groups
  | 0, _ :: _, _ => Except.error "Circular dependency detected in pipeline stages"
  | fuel + 1, remaining@(_ :: _), groups =>
      let availableStages := remaining.filter (fun s => areDependenciesMet s executionPath)
      match availableStages with
      | [] => Except.error "Circular dependency detected in pipeline stages"
      | next :: _ =>
          let parallelStages := availableStages.filter (fun s => s.parallel)
          if parallelStages.isEmpty then
            organizeLoop executionPath fuel
              (removeFirst (fun s => areDependenciesMet s executionPath) remaining)
              (groups ++ [[next]])
          else
            organizeLoop executionPath fuel
              (remaining.filter
                (fun s => !(areDependenciesMet s executionPath && s.parallel)))
              (groups ++ [parallelStages])

/-- `EnhancedPipeline.organizeStages`, as invoked at the start of `process`
with the pipeline's current (initially empty) `executionPath`. -/
def organizeStages (stages : List StageConfig) (executionPath : List String) :
    Except String (List (List StageConfig)) :=
  organizeLoop executionPath stages.length stages []

def stageA : StageConfig := { id := "A", priority := 0, parallel := false, dependencies := [] }

def stageB : StageConfig :=
  { id := "B", priority := 1, parallel := false, dependencies := ["A"] }

/-- **C1 (divergence witness).**  Registering stage A (no dependencies) and
stage B (depends on A) succeeds — construction does not fail — yet organising
the stages at the start of a fresh run (empty `executionPath`) aborts with the
circular-dependency error, because `organizeStages` checks dependencies against
the list of already-executed stages instead of the already-planned ones.  So
the acyclic A→B pipeline never executes any stage, contradicting the claim. -/
theorem acyclic_pipeline_run_rejected :
    addStage [] stageA = Except.ok [stageA] ∧
      addStage [stageA] stageB = Except.ok [stageA, stageB] ∧
      organizeStages [stageA, stageB] [] =
        Except.error "Circular dependency detected in pipeline stages" := by
  refine ⟨rfl, rfl, ?_⟩
  rfl

/-- Supporting fact: the cyclic configuration A→B→A cannot even be constructed
through `addStage` (part_017), because the first of the two stages necessarily
names a dependency that does not exist yet — that half of C1 holds. -/
theorem cyclic_pipeline_rejected_at_construction :
    addStage []
        { id := "A", priority := 0, parallel := false, dependencies := ["B"] } =
      Except.error "Stage A depends on non-existent stage B" := by
  rfl

end Pipeline

namespace Processor

/-- Tool-call parameters, kept as an ordered key → JSON-serialised-value map
(`Record<string, any>`; values are represented by their `JSON.stringify`
image, which is all the coordinator ever compares). -/
structure Params where
  entries : List (String × String)
  deriving Repr, DecidableEq

/-- `JSON.stringify(params)` of a parameter record. -/
def paramsJson (p : Params) : String :=
  "\x7b" ++ String.intercalate ","
    (p.entries.map (fun kv => "\"" ++ kv.1 ++ "\":" ++ kv.2)) ++ "\x7d"

/-- A tool's `execute` result (`ToolResult`). -/
structure ToolResult where
  success : Bool
  content : String
  error : Option String
  deriving Repr, DecidableEq

/-- The registered tool, as consulted by the coordinator: its name and its
`validate` predicate.  `execute` is an external collaborator and is passed to
`executeTool` as the outcome it would produce if invoked. -/
structure ToolSpec where
  name : String
  validate : Params → Bool

/-- One entry of the per-tool `recentExecutions` loop-detection log. -/
structure ExecRecord where
  params : Params
  timestamp : ℚ
  content : String
  deriving Repr, DecidableEq

/-- One entry of the per-tool error history (`ToolErrorEntry`), with the
resource snapshot captured in the catch block. -/
structure ErrorEntry where
  message : String
  timestamp : ℚ
  memory : ℚ
  cpu : ℚ
  deriving Repr, DecidableEq

/-- `ToolPerformanceStats` kept by the processor itself. -/
structure PerfStats where
  avgExecutionTime : ℚ
  successRate : ℚ
  lastNExecutions : List ℚ
  peakMemoryUsage : ℚ
  deriving Repr, DecidableEq

/-- `ToolMetrics` kept by the `ErrorHandlingService`. -/
structure ToolMetrics where
  avgExecutionTime : ℚ
  successCount : Nat
  failureCount : Nat
  lastNExecutionTimes : List ℚ
  deriving Repr, DecidableEq

def ToolMetrics.initial : ToolMetrics := ⟨0, 0, 0, []⟩

/-- The error taxonomy (`ErrorPattern`). -/
inductive ErrPattern
  | timeout | validation | permission | resource | system | unknown
  deriving Repr, DecidableEq

inductive Severity
  | low | medium | high
  deriving Repr, DecidableEq

/-- `analyzeErrorTiming`'s result. -/
structure TimingAnalysis where
  hasBurst : Bool
  avgTimeBetweenErrors : ℚ
  isRegularPattern : Bool
  deriving Repr, DecidableEq

/-- `ErrorAnalysis` (enhanced variant with timing block). -/
structure ErrorAnalysis where
  toolErrPattern : ErrPattern
  frequency : ℚ
  isRecurring : Bool
  severity : Severity
  recommendation : String
  timing : TimingAnalysis
  deriving Repr, DecidableEq

/-- Does `sub` occur at the head of `hay`? -/
def headMatches : List Char → List Char → Bool
  | [], _ => true
  | _ :: _, [] => false
  | s :: ss, h :: hs => s = h && headMatches ss hs

/-- JavaScript `hay.includes(sub)`. -/
def containsSub : List Char → List Char → Bool
  | hay, sub =>
    if headMatches sub hay then true
    else match hay with
      | [] => false
      | _ :: rest => containsSub rest sub

/-- `s.toLowerCase()` (ASCII, which covers every message the coordinator
builds). -/
def lowerStr (s : String) : String := ⟨s.data.map Char.toLower⟩

def includesStr (hay sub : String) : Bool := containsSub hay.data sub.data

/-- `ErrorHandlingService.categorizeError` (substring taxonomy; the argument is
already lowercased by the caller). -/
def categorizeError (errorMessage : String) : ErrPattern :=
  if includesStr errorMessage "timeout" || includesStr errorMessage "timed out" then
    ErrPattern.timeout
  else if includesStr errorMessage "validation" || includesStr errorMessage "invalid" then
    ErrPattern.validation
  else if includesStr errorMessage "permission" || includesStr errorMessage "access" then
    ErrPattern.permission
  else if includesStr errorMessage "not found" || includesStr errorMessage "missing" then
    ErrPattern.resource
  else if includesStr errorMessage "system" || includesStr errorMessage "internal" then
    ErrPattern.system
  else ErrPattern.unknown

/-- Insertion into an ascending list, for the timestamp sort. -/
def insertAsc (x : ℚ) : List ℚ → List ℚ
  | [] => [x]
  | y :: ys => if x ≤ y then x :: y :: ys else y :: insertAsc x ys

def sortAsc : List ℚ → List ℚ
  | [] => []
  | x :: xs => insertAsc x (sortAsc xs)

/-- Adjacent differences of a list (the `timeGaps`). -/
def adjacentGaps : List ℚ → List ℚ
  | [] => []
  | [_] => []
  | x :: y :: rest => (y - x) :: adjacentGaps (y :: rest)

def sumQ (l : List ℚ) : ℚ := l.foldl (· + ·) 0

/-- `ErrorHandlingService.analyzeErrorTiming`.  The source compares
`stdDev / avg < 0.5`; squaring both sides (both nonnegative, and the
comparison is false for `avg = 0` in both readings) this is
`4 * variance < avg ^ 2`, which avoids an irrational square root. -/
def analyzeErrorTiming (errors : List ErrorEntry) (now : ℚ) : TimingAnalysis :=
  let timestamps := sortAsc (errors.map ErrorEntry.timestamp)
  if timestamps.length < 2 then ⟨false, 0, false⟩
  else
    let timeGaps := adjacentGaps timestamps
    let recentErrors := timestamps.filter (fun t => now - t < 300000)
    let hasBurst := recentErrors.length ≥ 3
    let avg := sumQ timeGaps / timeGaps.length
    let variance := sumQ (timeGaps.map (fun g => (g - avg) ^ 2)) / timeGaps.length
    let isRegular := 4 * variance < avg ^ 2
    ⟨hasBurst, avg, decide isRegular⟩

/-- `ErrorHandlingService.calculateErrorSeverity` (enhanced variant). -/
def calculateErrorSeverity (pat : ErrPattern) (frequency : ℚ) (isRecurring : Bool)
    (timing : TimingAnalysis) : Severity :=
  let base : Severity :=
    if pat = ErrPattern.system ∨ frequency > 7/10 then Severity.high
    else if isRecurring ∨ frequency > 4/10 ∨ pat = ErrPattern.permission then Severity.medium
    else Severity.low
  if timing.hasBurst then Severity.high
  else if timing.isRegularPattern then
    (if base = Severity.low then Severity.medium else Severity.high)
  else base

/-- `ErrorHandlingService.getErrorRecommendation` (enhanced variant). -/
def getErrorRecommendation (pat : ErrPattern) (severity : Severity) (isRecurring : Bool)
    (timing : TimingAnalysis) : String :=
  let base :=
    match pat with
    | ErrPattern.timeout =>
        "Consider breaking operation into smaller steps or increasing timeout threshold"
    | ErrPattern.validation => "Review parameter requirements and input formats"
    | ErrPattern.permission => "Verify access rights and consider using alternative approaches"
    | ErrPattern.resource => "Confirm resource existence and check path accuracy"
    | ErrPattern.system => "Wait for system stability or try alternative method"
    | ErrPattern.unknown => "Review error details and consider simpler approach"
  let base := if timing.hasBurst then
      base ++ " Multiple errors occurring in rapid succession suggest a systemic issue."
    else if timing.isRegularPattern then
      base ++ " Errors are occurring in a regular pattern, indicating a potential timing or resource issue."
    else base
  let base := if timing.avgTimeBetweenErrors < 1000 then
      base ++ " Consider adding delays between operations." else base
  let base := if severity = Severity.high then base ++ " Immediate attention required." else base
  if isRecurring then base ++ " Pattern suggests systematic issue." else base

/-- `ErrorHandlingService.analyzeErrorPatterns` (enhanced variant): classify the
last error, count "similar" errors (same class, or a high-resource snapshot),
and attach the timing analysis. -/
def analyzeErrorPatterns (errors : List ErrorEntry) (now : ℚ) : ErrorAnalysis :=
  let lastMsg := ((errors.getLast?).map (fun e => lowerStr e.message)).getD ""
  let pat := categorizeError lastMsg
  let similarErrors := errors.filter (fun e =>
    if e.memory > 1000000000 ∨ e.cpu > 80 then true
    else categorizeError (lowerStr e.message) = pat)
  let frequency := (similarErrors.length : ℚ) / errors.length
  let isRecurring := similarErrors.length ≥ 3
  let timing := analyzeErrorTiming errors now
  let severity := calculateErrorSeverity pat frequency isRecurring timing
  { toolErrPattern := pat
    frequency := frequency
    isRecurring := isRecurring
    severity := severity
    recommendation := getErrorRecommendation pat severity isRecurring timing
    timing := timing }

/-- `ErrorHandlingService.updateToolPerformance`. -/
def updateToolPerformance (stats : ToolMetrics) (executionTime : ℚ) (success : Bool) :
    ToolMetrics :=
  let lastN := stats.lastNExecutionTimes ++ [executionTime]
  let lastN := if lastN.length > 10 then lastN.drop 1 else lastN
  { avgExecutionTime := sumQ lastN / lastN.length
    successCount := if success then stats.successCount + 1 else stats.successCount
    failureCount := if success then stats.failureCount else stats.failureCount + 1
    lastNExecutionTimes := lastN }

/-- `ErrorHandlingService.determineRetryStrategy` (enhanced variant). -/
def determineRetryStrategy (stats : ToolMetrics) (ep : ErrorAnalysis)
    (retryCount : Nat) : Bool :=
  if ep.toolErrPattern = ErrPattern.system ∧ ep.severity = Severity.high then false
  else if ep.toolErrPattern = ErrPattern.permission ∧ ep.isRecurring then false
  else if retryCount ≥ 3 then false
  else if ep.timing.hasBurst then false
  else
    let successRate := (stats.successCount : ℚ) / (stats.successCount + stats.failureCount)
    let patternWeight : ℚ :=
      if ep.toolErrPattern = ErrPattern.timeout then 8/10
      else if ep.toolErrPattern = ErrPattern.validation then 7/10
      else 1/2
    let patternWeight := if ep.timing.isRegularPattern then patternWeight * (7/10)
      else patternWeight
    let patternWeight := if ep.timing.avgTimeBetweenErrors < 1000 then patternWeight * (1/2)
      else patternWeight
    decide (successRate * patternWeight > 3/10)

/-- `ErrorHandlingService.calculateBackoffDelay`. -/
def calculateBackoffDelay (stats : ToolMetrics) (retryCount : Nat) : ℚ :=
  let baseDelay := min (1000 * (3/2 : ℚ) ^ retryCount) 10000
  let errorRate := (stats.failureCount : ℚ) / (stats.successCount + stats.failureCount)
  let errorMultiplier : ℚ := if errorRate > 1/2 then 3/2 else 1
  let timeMultiplier : ℚ := if stats.avgExecutionTime > 10000 * (1/2) then 3/2 else 1
  min (baseDelay * errorMultiplier * timeMultiplier) 10000

end Processor

namespace Processor

/-- The Levenshtein inner loop: given the previous matrix row (`up` is its
remaining tail), the diagonal and left cell values, produce the rest of the
current row. -/
def levRowAux (c : Char) : List Char → Nat → Nat → List Nat → List Nat
  | [], _, _, _ => []
  | _ :: _, _, _, [] => []
  | d :: ds, diag, left, p :: ps =>
      (if c = d then diag else min (min (diag + 1) (left + 1)) (p + 1)) ::
        levRowAux c ds p
          (if c = d then diag else min (min (diag + 1) (left + 1)) (p + 1)) ps

/-- Levenshtein distance (the dynamic-programming matrix of
`EnhancedMessageProcessor.calculateSimilarity`, lines 266–298). -/
def levenshtein (s1 s2 : List Char) : Nat :=
  ((s1.foldl (fun row c =>
      match row with
      | [] => []
      | p0 :: ps => (p0 + 1) :: levRowAux c s2 p0 (p0 + 1) ps)
    (List.range (s2.length + 1))).getLast?).getD 0

/-- `calculateSimilarity`: `1 - distance / maxLength`.  (The only caller guards
against both strings being empty.) -/
def calculateSimilarity (str1 str2 : String) : ℚ :=
  1 - (levenshtein str1.data str2.data : ℚ) / (max str1.length str2.length : ℚ)

/-- JavaScript `Math.round` (half away from zero is irrelevant here: the inputs
are nonnegative, so `floor (x + 1/2)` is exact). -/
def jsRound (x : ℚ) : ℤ := ⌊x + 1/2⌋

/-- `EnhancedMessageProcessor.analyzeExecutionPattern` (lines 303–338): the
interval-regularity and parameter-variation diagnosis quoted inside the
loop-detection error. -/
def analyzeExecutionPattern (executions : List ExecRecord) : String :=
  (if (adjacentGaps (executions.map ExecRecord.timestamp)).all
      (fun gap => |gap - sumQ (adjacentGaps (executions.map ExecRecord.timestamp)) /
          ((adjacentGaps (executions.map ExecRecord.timestamp)).length : ℚ)| <
        sumQ (adjacentGaps (executions.map ExecRecord.timestamp)) /
          ((adjacentGaps (executions.map ExecRecord.timestamp)).length : ℚ) * (2/10)) then
    "Regular interval detected (" ++
      toString (jsRound (sumQ (adjacentGaps (executions.map ExecRecord.timestamp)) /
        ((adjacentGaps (executions.map ExecRecord.timestamp)).length : ℚ))) ++ "ms). "
  else "") ++
  (if (((executions.head?).map (fun e => e.params.entries.map Prod.fst)).getD []).filter
      (fun key => !(executions.all (fun e => e.params.entries.lookup key =
        (((executions.head?).map (fun e0 => e0.params.entries.lookup key)).getD none)))) ≠
      [] then
    "Parameters varying: " ++
      String.intercalate ", "
        ((((executions.head?).map (fun e => e.params.entries.map Prod.fst)).getD []).filter
          (fun key => !(executions.all (fun e => e.params.entries.lookup key =
            (((executions.head?).map
              (fun e0 => e0.params.entries.lookup key)).getD none))))) ++ ". "
  else "Identical parameters in all executions. ")

/-- The loop-detection error message (lines 424–428). -/
def loopMessage (toolName : String) (similarExecutions : List ExecRecord) : String :=
  "Potential loop detected: " ++ analyzeExecutionPattern similarExecutions ++ "\n" ++
    toString similarExecutions.length ++ " similar executions of " ++ toolName ++
    " in 300s\n" ++
    "Consider using a different approach or adding more variation to the parameters."

def invalidMsg (toolName : String) (retryCount : Nat) : String :=
  "Invalid parameters for tool " ++ toolName ++ ". Attempt " ++ toString (retryCount + 1) ++
    "/5. Please check parameter types and requirements."

def disabledMsg (toolName : String) : String :=
  "Maximum retry attempts (5) exceeded for tool " ++ toolName ++
    ". Tool has been temporarily disabled."

def cooldownMsg (toolName : String) (waitTime : ℤ) : String :=
  "Tool " ++ toolName ++ " is in timeout. Please wait " ++ toString waitTime ++
    " seconds before retrying."

/-- The mutable maps of `EnhancedMessageProcessor` (keyed by tool name) plus
the `ErrorHandlingService`'s performance map. -/
structure ProcState where
  toolTimeouts : String → Option ℚ
  toolRetryCount : String → Option Nat
  lastToolExecution : String → Option ℚ
  toolErrors : String → List ErrorEntry
  toolPerformance : String → Option PerfStats
  ehsMetrics : String → Option ToolMetrics
  recentExecutions : String → List ExecRecord

/-- Pointwise map update. -/
def upd {α : Type} (f : String → α) (k : String) (v : α) : String → α :=
  fun k' => if k' = k then v else f k'

def ProcState.initial : ProcState :=
  ⟨fun _ => none, fun _ => none, fun _ => none, fun _ => [], fun _ => none,
    fun _ => none, fun _ => []⟩

/-- `toolTimeoutOverrides.get(toolName) || DEFAULT_TOOL_EXECUTION_TIME`. -/
def effTimeout (toolName : String) : ℚ :=
  if toolName = "browser_action" ∨ toolName = "execute_command" ∨ toolName = "apply_diff"
  then 120000 else 30000

/-- The cooldown gate (lines 352–360): `lastToolExecution` truthy (present and
nonzero) and the elapsed time below the recorded timeout. -/
def cooldownActive (st : ProcState) (toolName : String) (now : ℚ) : Bool :=
  match st.lastToolExecution toolName with
  | none => false
  | some last => !(decide (last = 0)) &&
      decide (now - last < (st.toolTimeouts toolName).getD 0)

/-- The error list after the catch block appends the new entry (line 528). -/
def errListAfter (st : ProcState) (toolName msg : String) (now mem cpu : ℚ) :
    List ErrorEntry :=
  st.toolErrors toolName ++ [⟨msg, now, mem, cpu⟩]

/-- `ErrorHandlingService` metrics after `updateToolPerformance(name, t, false)`
(line 549; in the instantaneous-time model the wall time of the failed call
is 0). -/
def ehsAfterFailure (st : ProcState) (toolName : String) : ToolMetrics :=
  updateToolPerformance ((st.ehsMetrics toolName).getD ToolMetrics.initial) 0 false

/-- The processor's own `ToolPerformanceStats` after the catch block
(lines 532–548). -/
def perfBase (st : ProcState) (toolName : String) : PerfStats :=
  (st.toolPerformance toolName).getD ⟨0, 1, [], 0⟩

/-- `push` then `shift` when over the 10-entry history cap. -/
def pushTrim10 (l : List ℚ) (x : ℚ) : List ℚ :=
  if (l ++ [x]).length > 10 then (l ++ [x]).drop 1 else l ++ [x]

def perfAfterFailure (st : ProcState) (toolName : String) (errCount : Nat) (mem : ℚ) :
    PerfStats :=
  { avgExecutionTime := sumQ (pushTrim10 (perfBase st toolName).lastNExecutions 0) /
      ((pushTrim10 (perfBase st toolName).lastNExecutions 0).length : ℚ)
    successRate := ((perfBase st toolName).successRate * ((errCount : ℚ) - 1) + 0) /
      (errCount : ℚ)
    lastNExecutions := pushTrim10 (perfBase st toolName).lastNExecutions 0
    peakMemoryUsage := max (perfBase st toolName).peakMemoryUsage mem }

/-- `determineRetryStrategy` as invoked in the catch block (line 554), on the
already-updated service metrics and the freshly analysed error pattern. -/
def shouldRetryAfter (st : ProcState) (toolName msg : String) (now mem cpu : ℚ) : Bool :=
  determineRetryStrategy (ehsAfterFailure st toolName)
    (analyzeErrorPatterns (errListAfter st toolName msg now mem cpu) now)
    ((st.toolRetryCount toolName).getD 0)

/-- The cooldown recorded by the catch block (lines 589–597): the backoff delay
when retrying, else twice the tool's execution timeout. -/
def cooldownAfter (st : ProcState) (toolName msg : String) (now mem cpu : ℚ) : ℚ :=
  if shouldRetryAfter st toolName msg now mem cpu then
    calculateBackoffDelay (ehsAfterFailure st toolName)
      ((st.toolRetryCount toolName).getD 0)
  else effTimeout toolName * 2

/-- State effects of the catch block of `executeTool` (lines 511–646). -/
def catchUpdate (st : ProcState) (toolName msg : String) (now mem cpu : ℚ) : ProcState :=
  { st with
    toolErrors := upd st.toolErrors toolName (errListAfter st toolName msg now mem cpu)
    toolPerformance := upd st.toolPerformance toolName
      (some (perfAfterFailure st toolName
        (errListAfter st toolName msg now mem cpu).length mem))
    ehsMetrics := upd st.ehsMetrics toolName (some (ehsAfterFailure st toolName))
    toolTimeouts := upd st.toolTimeouts toolName
      (some (cooldownAfter st toolName msg now mem cpu))
    lastToolExecution := upd st.lastToolExecution toolName (some now) }

/-- How one `executeTool` call ends. -/
inductive CallOutcome
  | cooldownRejected (msg : String)
  | invalidParams (msg : String)
  | disabled (msg : String)
  | loopDetected (msg : String)
  | execThrew (msg : String)
  | executed (r : ToolResult)
  deriving Repr, DecidableEq

/-- Entries of the loop-detection log inside the rolling 5-minute window
(lines 401–403). -/
def windowFiltered (st : ProcState) (toolName : String) (now : ℚ) : List ExecRecord :=
  (st.recentExecutions toolName).filter (fun e => decide (now - e.timestamp < 300000))

/-- The "similar executions" filter (lines 406–420): byte-identical parameters,
or nonempty recorded content Levenshtein-similar to the parameters above the
0.8 threshold. -/
def similarExecs (st : ProcState) (toolName : String) (now : ℚ) (params : Params) :
    List ExecRecord :=
  (windowFiltered st toolName now).filter (fun e =>
    decide (paramsJson e.params = paramsJson params) ||
      (!(decide (e.content = "")) &&
        decide (calculateSimilarity e.content (paramsJson params) > 8/10)))

/-- Overwrite the content of the last recorded execution (lines 454–459). -/
def setLastContent (content : String) : List ExecRecord → List ExecRecord
  | [] => []
  | [e] => [{ e with content := content }]
  | e :: rest => e :: setLastContent content rest

/-- `EnhancedMessageProcessor.executeTool` (lines 340–646) as a state
transition.  `execOutcome` is what the external `tool.execute(params)` (raced
against its timeout) would produce if invoked — `Except.error` covers both a
thrown error and the timeout rejection.  Hooks are absent (the default `{}`),
and the call is modelled as instantaneous at time `now` with resource
snapshot `mem`/`cpu`. -/
def executeTool (tool : ToolSpec) (params : Params) (execOutcome : Except String ToolResult)
    (now mem cpu : ℚ) (st : ProcState) : CallOutcome × ProcState :=
  if cooldownActive st tool.name now then
    (CallOutcome.cooldownRejected (cooldownMsg tool.name
      ⌈((st.toolTimeouts tool.name).getD 0 -
        (now - (st.lastToolExecution tool.name).getD 0)) / 1000⌉), st)
  else if tool.validate params = false then
    if (st.toolRetryCount tool.name).getD 0 ≥ 5 then
      (CallOutcome.disabled (disabledMsg tool.name),
        catchUpdate
          { st with
            toolRetryCount := upd st.toolRetryCount tool.name
              (some ((st.toolRetryCount tool.name).getD 0 + 1))
            toolTimeouts := upd st.toolTimeouts tool.name (some (effTimeout tool.name))
            lastToolExecution := upd st.lastToolExecution tool.name (some now) }
          tool.name (disabledMsg tool.name) now mem cpu)
    else
      (CallOutcome.invalidParams (invalidMsg tool.name ((st.toolRetryCount tool.name).getD 0)),
        catchUpdate
          { st with
            toolRetryCount := upd st.toolRetryCount tool.name
              (some ((st.toolRetryCount tool.name).getD 0 + 1)) }
          tool.name (invalidMsg tool.name ((st.toolRetryCount tool.name).getD 0)) now mem cpu)
  else
    if (similarExecs st tool.name now params).length ≥ 4 then
      (CallOutcome.loopDetected (loopMessage tool.name (similarExecs st tool.name now params)),
        catchUpdate
          { st with toolRetryCount := upd st.toolRetryCount tool.name none }
          tool.name (loopMessage tool.name (similarExecs st tool.name now params)) now mem cpu)
    else
      match execOutcome with
      | Except.ok result =>
          (CallOutcome.executed result,
            { st with
              toolRetryCount := upd st.toolRetryCount tool.name none
              recentExecutions := upd st.recentExecutions tool.name
                (setLastContent result.content
                  (windowFiltered st tool.name now ++ [⟨params, now, ""⟩]))
              lastToolExecution := upd st.lastToolExecution tool.name (some now)
              ehsMetrics := upd st.ehsMetrics tool.name
                (some (updateToolPerformance
                  ((st.ehsMetrics tool.name).getD ToolMetrics.initial) 0 true)) })
      | Except.error e =>
          (CallOutcome.execThrew e,
            catchUpdate
              { st with
                toolRetryCount := upd st.toolRetryCount tool.name none
                recentExecutions := upd st.recentExecutions tool.name
                  (windowFiltered st tool.name now ++ [⟨params, now, ""⟩]) }
              tool.name e now mem cpu)

end Processor

namespace Processor

theorem upd_same {α : Type} (f : String → α) (k : String) (v : α) : upd f k v k = v := by
  simp [upd]

theorem ehsAfterFailure_successCount (st : ProcState) (toolName : String) :
    (ehsAfterFailure st toolName).successCount =
      ((st.ehsMetrics toolName).getD ToolMetrics.initial).successCount := rfl

/-- Under a zero historical success count — or once the retry counter has
reached the service's `ERROR_THRESHOLD` — the catch block never schedules a
retry, whatever the error looked like. -/
theorem shouldRetryAfter_false (st : ProcState) (toolName msg : String) (now mem cpu : ℚ)
    (h : ((st.ehsMetrics toolName).getD ToolMetrics.initial).successCount = 0 ∨
      3 ≤ (st.toolRetryCount toolName).getD 0) :
    shouldRetryAfter st toolName msg now mem cpu = false := by
  rcases h with h | h
  · have hzero : ((ehsAfterFailure st toolName).successCount : ℚ) = 0 := by
      rw [ehsAfterFailure_successCount, h]; norm_num
    unfold shouldRetryAfter determineRetryStrategy
    split_ifs <;> try rfl
    all_goals simp only [hzero, zero_div, zero_mul]
    all_goals exact decide_eq_false (by norm_num)
  · unfold shouldRetryAfter determineRetryStrategy
    split_ifs <;> rfl

theorem cooldownAfter_no_retry (st : ProcState) (toolName msg : String) (now mem cpu : ℚ)
    (h : ((st.ehsMetrics toolName).getD ToolMetrics.initial).successCount = 0 ∨
      3 ≤ (st.toolRetryCount toolName).getD 0) :
    cooldownAfter st toolName msg now mem cpu = effTimeout toolName * 2 := by
  unfold cooldownAfter
  rw [shouldRetryAfter_false st toolName msg now mem cpu h]
  rfl

/-- **C2.**  Whenever the loop log already holds at least
`MAX_SIMILAR_EXECUTIONS` (= 4) entries with byte-identical parameters inside
the rolling 5-minute window, a further call with those parameters (past the
cooldown gate, with valid parameters) is refused as a detected loop, carrying
the pattern-describing message, and the refusal is independent of what
`tool.execute` would have returned — the tool is never executed. -/
theorem loop_detected_on_threshold (tool : ToolSpec) (params : Params)
    (execOutcome : Except String ToolResult) (now mem cpu : ℚ) (st : ProcState)
    (hgate : cooldownActive st tool.name now = false)
    (hval : tool.validate params = true)
    (hcount : 4 ≤ ((st.recentExecutions tool.name).filter (fun e =>
      decide (now - e.timestamp < 300000) &&
        decide (paramsJson e.params = paramsJson params))).length) :
    executeTool tool params execOutcome now mem cpu st =
      (CallOutcome.loopDetected
          (loopMessage tool.name (similarExecs st tool.name now params)),
        catchUpdate { st with toolRetryCount := upd st.toolRetryCount tool.name none }
          tool.name (loopMessage tool.name (similarExecs st tool.name now params))
          now mem cpu) ∧
      ∀ alt : Except String ToolResult,
        executeTool tool params alt now mem cpu st =
          executeTool tool params execOutcome now mem cpu st := by
  have hsim : 4 ≤ (similarExecs st tool.name now params).length := by
    unfold similarExecs windowFiltered
    rw [List.filter_filter, ← List.countP_eq_length_filter]
    rw [← List.countP_eq_length_filter] at hcount
    refine le_trans hcount (List.countP_mono_left ?_)
    intro e _ he
    rw [Bool.and_eq_true] at he
    rw [Bool.and_eq_true, Bool.or_eq_true]
    exact ⟨Or.inl he.2, he.1⟩
  have key : ∀ oc : Except String ToolResult,
      executeTool tool params oc now mem cpu st =
        (CallOutcome.loopDetected
            (loopMessage tool.name (similarExecs st tool.name now params)),
          catchUpdate { st with toolRetryCount := upd st.toolRetryCount tool.name none }
            tool.name (loopMessage tool.name (similarExecs st tool.name now params))
            now mem cpu) := by
    intro oc
    unfold executeTool
    rw [hgate, hval]
    simp only [Bool.false_eq_true, Bool.true_eq_false, if_false]
    rw [if_pos hsim]
  exact ⟨key execOutcome, fun alt => (key alt).trans (key execOutcome).symm⟩

def flakyTool : ToolSpec := ⟨"flaky", fun _ => true⟩

def paramX : Params := ⟨[("x", "1")]⟩

/-- The loop log after four identical `flaky` calls at 0, 60, 120 and 180
seconds, the last of which set `lastToolExecution`. -/
def loopState : ProcState :=
  { ProcState.initial with
    lastToolExecution := upd ProcState.initial.lastToolExecution "flaky" (some 180000)
    recentExecutions := upd ProcState.initial.recentExecutions "flaky"
      [⟨paramX, 0, "ok"⟩, ⟨paramX, 60000, "ok"⟩, ⟨paramX, 120000, "ok"⟩,
        ⟨paramX, 180000, "ok"⟩] }

/-- Witness for C2: a fifth identical call at 240 s — four byte-identical
executions already inside the 5-minute window — is refused as a loop. -/
theorem loop_detected_on_threshold_witness :
    cooldownActive loopState flakyTool.name 240000 = false ∧
      flakyTool.validate paramX = true ∧
      4 ≤ ((loopState.recentExecutions flakyTool.name).filter (fun e =>
        decide ((240000 : ℚ) - e.timestamp < 300000) &&
          decide (paramsJson e.params = paramsJson paramX))).length ∧
      (executeTool flakyTool paramX (Except.ok ⟨true, "ok", none⟩) 240000 0 0 loopState).1 =
        CallOutcome.loopDetected
          (loopMessage flakyTool.name (similarExecs loopState flakyTool.name 240000 paramX)) := by
  have hgate : cooldownActive loopState flakyTool.name 240000 = false := by
    unfold cooldownActive
    rw [show loopState.lastToolExecution flakyTool.name = some 180000 from rfl]
    have h : ¬((240000 : ℚ) - 180000 < (loopState.toolTimeouts flakyTool.name).getD 0) := by
      rw [show loopState.toolTimeouts flakyTool.name = none from rfl]
      norm_num
    simp [h]
  have hcount : 4 ≤ ((loopState.recentExecutions flakyTool.name).filter (fun e =>
      decide ((240000 : ℚ) - e.timestamp < 300000) &&
        decide (paramsJson e.params = paramsJson paramX))).length := by
    rw [show loopState.recentExecutions flakyTool.name =
      [⟨paramX, 0, "ok"⟩, ⟨paramX, 60000, "ok"⟩, ⟨paramX, 120000, "ok"⟩,
        ⟨paramX, 180000, "ok"⟩] from rfl]
    have h1 : ((240000 : ℚ) - 0 < 300000) := by norm_num
    have h2 : ((240000 : ℚ) - 60000 < 300000) := by norm_num
    have h3 : ((240000 : ℚ) - 120000 < 300000) := by norm_num
    have h4 : ((240000 : ℚ) - 180000 < 300000) := by norm_num
    simp only [List.filter_cons, List.filter_nil, decide_eq_true h1, decide_eq_true h2,
      decide_eq_true h3, decide_eq_true h4, Bool.true_and,
      decide_eq_true (rfl : paramsJson paramX = paramsJson paramX), decide_True,
      if_pos, List.length_cons]
    simp
  refine ⟨hgate, rfl, hcount, ?_⟩
  exact congrArg Prod.fst
    (loop_detected_on_threshold flakyTool paramX (Except.ok ⟨true, "ok", none⟩) 240000 0 0
      loopState hgate rfl hcount).1

end Processor

namespace Processor

theorem effTimeout_pos (toolName : String) : 0 < effTimeout toolName := by
  unfold effTimeout
  split <;> norm_num

/-- The cooldown gate stays closed for any call far enough after `tprev`. -/
def GateInv (toolName : String) (tprev : ℚ) (st : ProcState) : Prop :=
  ∀ t' : ℚ, effTimeout toolName * 2 ≤ t' - tprev → cooldownActive st toolName t' = false

/-- Invariant maintained across failing-validation calls: the stored retry
counter, a closed cooldown gate, and a zero historical success count. -/
def C3Inv (toolName : String) (k : Nat) (tprev : ℚ) (st : ProcState) : Prop :=
  (st.toolRetryCount toolName).getD 0 = k ∧ GateInv toolName tprev st ∧
    ((st.ehsMetrics toolName).getD ToolMetrics.initial).successCount = 0

theorem c3inv_initial (toolName : String) (tprev : ℚ) :
    C3Inv toolName 0 tprev ProcState.initial :=
  ⟨rfl, fun _ _ => rfl, rfl⟩

/-- A call whose parameters fail `validate` while the stored retry counter is
below `MAX_RETRIES` throws the "Invalid parameters … Attempt (k+1)/5" error,
increments the counter, and re-enters a `2 × timeout` cooldown. -/
theorem executeTool_invalid_step (tool : ToolSpec) (params : Params)
    (oc : Except String ToolResult) (now mem cpu tprev : ℚ) (st : ProcState) (k : Nat)
    (hv : tool.validate params = false)
    (hinv : C3Inv tool.name k tprev st) (hk : k < 5)
    (hgap : effTimeout tool.name * 2 ≤ now - tprev) :
    ∃ st', executeTool tool params oc now mem cpu st =
        (CallOutcome.invalidParams (invalidMsg tool.name k), st') ∧
      C3Inv tool.name (k + 1) now st' := by
  obtain ⟨hrc, hgate, hsucc⟩ := hinv
  have hg : cooldownActive st tool.name now = false := hgate now hgap
  refine ⟨catchUpdate
      { st with toolRetryCount := upd st.toolRetryCount tool.name (some (k + 1)) }
      tool.name (invalidMsg tool.name k) now mem cpu, ?_, ?_, ?_, ?_⟩
  · unfold executeTool
    rw [hg, hv, hrc]
    simp only [Bool.false_eq_true, if_false, eq_self_iff_true, if_true]
    rw [if_neg (by omega : ¬ k ≥ 5)]
  · show ((catchUpdate
      { st with toolRetryCount := upd st.toolRetryCount tool.name (some (k + 1)) }
      tool.name (invalidMsg tool.name k) now mem cpu).toolRetryCount tool.name).getD 0 = k + 1
    show ((upd st.toolRetryCount tool.name (some (k + 1))) tool.name).getD 0 = k + 1
    rw [upd_same]
    rfl
  · intro t' ht'
    unfold cooldownActive
    show (match (upd st.lastToolExecution tool.name (some now)) tool.name with
      | none => false
      | some last => !(decide (last = 0)) && decide (t' - last <
          ((upd st.toolTimeouts tool.name (some (cooldownAfter
            { st with toolRetryCount := upd st.toolRetryCount tool.name (some (k + 1)) }
            tool.name (invalidMsg tool.name k) now mem cpu))) tool.name).getD 0)) = false
    rw [upd_same, upd_same]
    have hcd : cooldownAfter
        { st with toolRetryCount := upd st.toolRetryCount tool.name (some (k + 1)) }
        tool.name (invalidMsg tool.name k) now mem cpu = effTimeout tool.name * 2 :=
      cooldownAfter_no_retry _ _ _ _ _ _ (Or.inl hsucc)
    rw [hcd]
    have : ¬(t' - now < effTimeout tool.name * 2) := by
      rw [not_lt]
      linarith
    simp [this]
  · show (((upd st.ehsMetrics tool.name (some (ehsAfterFailure
      { st with toolRetryCount := upd st.toolRetryCount tool.name (some (k + 1)) }
      tool.name))) tool.name).getD ToolMetrics.initial).successCount = 0
    rw [upd_same]
    show (ehsAfterFailure
      { st with toolRetryCount := upd st.toolRetryCount tool.name (some (k + 1)) }
      tool.name).successCount = 0
    rw [ehsAfterFailure_successCount]
    exact hsucc

end Processor

namespace Processor

theorem catchUpdate_toolTimeouts (st : ProcState) (n m : String) (now mem cpu : ℚ) :
    (catchUpdate st n m now mem cpu).toolTimeouts n =
      some (cooldownAfter st n m now mem cpu) :=
  upd_same _ _ _

theorem catchUpdate_lastToolExecution (st : ProcState) (n m : String) (now mem cpu : ℚ) :
    (catchUpdate st n m now mem cpu).lastToolExecution n = some now :=
  upd_same _ _ _

/-- A call arriving while the tool's cooldown window is still open is rejected
immediately, before validation, with the remaining wait time in seconds; the
state is untouched. -/
theorem executeTool_cooldown_step (tool : ToolSpec) (params : Params)
    (oc : Except String ToolResult) (now mem cpu : ℚ) (st : ProcState) (τ tl : ℚ)
    (htt : st.toolTimeouts tool.name = some τ)
    (hle : st.lastToolExecution tool.name = some tl)
    (h0 : tl ≠ 0) (hlt : now - tl < τ) :
    executeTool tool params oc now mem cpu st =
      (CallOutcome.cooldownRejected (cooldownMsg tool.name ⌈(τ - (now - tl)) / 1000⌉), st) := by
  have hact : cooldownActive st tool.name now = true := by
    unfold cooldownActive
    rw [hle, htt]
    simp [h0, hlt]
  unfold executeTool
  rw [hact, htt, hle]
  simp

/-- The sixth failing-validation call (stored retry counter 5 = `MAX_RETRIES`)
throws the "temporarily disabled" error and leaves the tool under a
`2 × timeout` cooldown anchored at the call's time. -/
theorem executeTool_disabled_step (tool : ToolSpec) (params : Params)
    (oc : Except String ToolResult) (now mem cpu tprev : ℚ) (st : ProcState)
    (hv : tool.validate params = false)
    (hinv : C3Inv tool.name 5 tprev st)
    (hgap : effTimeout tool.name * 2 ≤ now - tprev) (hnow : now ≠ 0) :
    ∃ st', executeTool tool params oc now mem cpu st =
        (CallOutcome.disabled (disabledMsg tool.name), st') ∧
      st'.toolTimeouts tool.name = some (effTimeout tool.name * 2) ∧
      st'.lastToolExecution tool.name = some now ∧
      ∀ (t' : ℚ) (oc' : Except String ToolResult), t' - now < effTimeout tool.name * 2 →
        executeTool tool params oc' t' mem cpu st' =
          (CallOutcome.cooldownRejected (cooldownMsg tool.name
            ⌈(effTimeout tool.name * 2 - (t' - now)) / 1000⌉), st') := by
  obtain ⟨hrc, hgate, hsucc⟩ := hinv
  have hg : cooldownActive st tool.name now = false := hgate now hgap
  have hcd : cooldownAfter
      { st with
        toolRetryCount := upd st.toolRetryCount tool.name (some (5 + 1))
        toolTimeouts := upd st.toolTimeouts tool.name (some (effTimeout tool.name))
        lastToolExecution := upd st.lastToolExecution tool.name (some now) }
      tool.name (disabledMsg tool.name) now mem cpu = effTimeout tool.name * 2 := by
    refine cooldownAfter_no_retry _ _ _ _ _ _ (Or.inr ?_)
    show 3 ≤ ((upd st.toolRetryCount tool.name (some (5 + 1))) tool.name).getD 0
    rw [upd_same]
    norm_num
  refine ⟨catchUpdate
      { st with
        toolRetryCount := upd st.toolRetryCount tool.name (some (5 + 1))
        toolTimeouts := upd st.toolTimeouts tool.name (some (effTimeout tool.name))
        lastToolExecution := upd st.lastToolExecution tool.name (some now) }
      tool.name (disabledMsg tool.name) now mem cpu, ?_, ?_, ?_, ?_⟩
  · unfold executeTool
    rw [hg, hv, hrc]
    simp only [Bool.false_eq_true, if_false, eq_self_iff_true, if_true]
    rw [if_pos (by norm_num : (5 : Nat) ≥ 5)]
  · rw [catchUpdate_toolTimeouts, hcd]
  · exact catchUpdate_lastToolExecution _ _ _ _ _ _
  · intro t' oc' hlt
    refine executeTool_cooldown_step tool params oc' t' mem cpu _
      (effTimeout tool.name * 2) now ?_ ?_ hnow hlt
    · rw [catchUpdate_toolTimeouts, hcd]
    · exact catchUpdate_lastToolExecution _ _ _ _ _ _

end Processor

namespace Processor

/-- **C3.**  For a tool whose `validate` rejects the given parameters, six
coordinator calls spaced past each cooldown behave as follows: the first five
fail with "Invalid parameters … Attempt k/5" (k = 1..5) while incrementing the
per-tool retry counter; the sixth call — the one after exactly `MAX_RETRIES`
attempts — fails hard with the "temporarily disabled" error and re-arms a
`2 × timeout` cooldown anchored at the sixth call; and every later call made
before that cooldown elapses is rejected immediately with a message stating
the remaining wait in seconds. -/
theorem retry_ceiling_then_disabled_then_cooldown (tool : ToolSpec) (params : Params)
    (oc1 oc2 oc3 oc4 oc5 oc6 : Except String ToolResult) (mem cpu : ℚ)
    (t1 t2 t3 t4 t5 t6 : ℚ)
    (hv : tool.validate params = false) (hpos : 0 < t1)
    (g1 : effTimeout tool.name * 2 ≤ t2 - t1)
    (g2 : effTimeout tool.name * 2 ≤ t3 - t2)
    (g3 : effTimeout tool.name * 2 ≤ t4 - t3)
    (g4 : effTimeout tool.name * 2 ≤ t5 - t4)
    (g5 : effTimeout tool.name * 2 ≤ t6 - t5) :
    ∃ s1 s2 s3 s4 s5 s6 : ProcState,
      executeTool tool params oc1 t1 mem cpu ProcState.initial =
        (CallOutcome.invalidParams (invalidMsg tool.name 0), s1) ∧
      executeTool tool params oc2 t2 mem cpu s1 =
        (CallOutcome.invalidParams (invalidMsg tool.name 1), s2) ∧
      executeTool tool params oc3 t3 mem cpu s2 =
        (CallOutcome.invalidParams (invalidMsg tool.name 2), s3) ∧
      executeTool tool params oc4 t4 mem cpu s3 =
        (CallOutcome.invalidParams (invalidMsg tool.name 3), s4) ∧
      executeTool tool params oc5 t5 mem cpu s4 =
        (CallOutcome.invalidParams (invalidMsg tool.name 4), s5) ∧
      executeTool tool params oc6 t6 mem cpu s5 =
        (CallOutcome.disabled (disabledMsg tool.name), s6) ∧
      s6.toolTimeouts tool.name = some (effTimeout tool.name * 2) ∧
      s6.lastToolExecution tool.name = some t6 ∧
      ∀ (t' : ℚ) (oc' : Except String ToolResult),
        t' - t6 < effTimeout tool.name * 2 →
          executeTool tool params oc' t' mem cpu s6 =
            (CallOutcome.cooldownRejected (cooldownMsg tool.name
              ⌈(effTimeout tool.name * 2 - (t' - t6)) / 1000⌉), s6) := by
  have heff : 0 < effTimeout tool.name := effTimeout_pos tool.name
  obtain ⟨s1, he1, hi1⟩ := executeTool_invalid_step tool params oc1 t1 mem cpu
    (t1 - effTimeout tool.name * 2) ProcState.initial 0 hv
    (c3inv_initial tool.name _) (by norm_num) (by linarith)
  obtain ⟨s2, he2, hi2⟩ := executeTool_invalid_step tool params oc2 t2 mem cpu
    t1 s1 1 hv hi1 (by norm_num) g1
  obtain ⟨s3, he3, hi3⟩ := executeTool_invalid_step tool params oc3 t3 mem cpu
    t2 s2 2 hv hi2 (by norm_num) g2
  obtain ⟨s4, he4, hi4⟩ := executeTool_invalid_step tool params oc4 t4 mem cpu
    t3 s3 3 hv hi3 (by norm_num) g3
  obtain ⟨s5, he5, hi5⟩ := executeTool_invalid_step tool params oc5 t5 mem cpu
    t4 s4 4 hv hi4 (by norm_num) g4
  have ht6 : t6 ≠ 0 := by
    have : t1 < t6 := by linarith
    intro h
    rw [h] at this
    linarith
  obtain ⟨s6, he6, htt, hle, hcool⟩ := executeTool_disabled_step tool params oc6 t6 mem cpu
    t5 s5 hv hi5 g5 ht6
  exact ⟨s1, s2, s3, s4, s5, s6, he1, he2, he3, he4, he5, he6, htt, hle, hcool⟩

def badTool : ToolSpec := ⟨"badtool", fun _ => false⟩

/-- Witness for C3: the concrete tool `"badtool"` (default 30 s execution
timeout, hence 60 s cooldowns) called at 1, 60001, 120001, … ms. -/
theorem retry_ceiling_then_disabled_then_cooldown_witness :
    badTool.validate paramX = false ∧
      ∃ s1 s2 s3 s4 s5 s6 : ProcState,
        executeTool badTool paramX (Except.ok ⟨true, "", none⟩) 1 0 0 ProcState.initial =
          (CallOutcome.invalidParams (invalidMsg badTool.name 0), s1) ∧
        executeTool badTool paramX (Except.ok ⟨true, "", none⟩) 60001 0 0 s1 =
          (CallOutcome.invalidParams (invalidMsg badTool.name 1), s2) ∧
        executeTool badTool paramX (Except.ok ⟨true, "", none⟩) 120001 0 0 s2 =
          (CallOutcome.invalidParams (invalidMsg badTool.name 2), s3) ∧
        executeTool badTool paramX (Except.ok ⟨true, "", none⟩) 180001 0 0 s3 =
          (CallOutcome.invalidParams (invalidMsg badTool.name 3), s4) ∧
        executeTool badTool paramX (Except.ok ⟨true, "", none⟩) 240001 0 0 s4 =
          (CallOutcome.invalidParams (invalidMsg badTool.name 4), s5) ∧
        executeTool badTool paramX (Except.ok ⟨true, "", none⟩) 300001 0 0 s5 =
          (CallOutcome.disabled (disabledMsg badTool.name), s6) ∧
        s6.toolTimeouts badTool.name = some (effTimeout badTool.name * 2) ∧
        s6.lastToolExecution badTool.name = some 300001 ∧
        ∀ (t' : ℚ) (oc' : Except String ToolResult),
          t' - 300001 < effTimeout badTool.name * 2 →
            executeTool badTool paramX oc' t' 0 0 s6 =
              (CallOutcome.cooldownRejected (cooldownMsg badTool.name
                ⌈(effTimeout badTool.name * 2 - (t' - 300001)) / 1000⌉), s6) := by
  have heff : effTimeout badTool.name = 30000 := rfl
  refine ⟨rfl, ?_⟩
  exact retry_ceiling_then_disabled_then_cooldown badTool paramX
    (Except.ok ⟨true, "", none⟩) (Except.ok ⟨true, "", none⟩) (Except.ok ⟨true, "", none⟩)
    (Except.ok ⟨true, "", none⟩) (Except.ok ⟨true, "", none⟩) (Except.ok ⟨true, "", none⟩)
    0 0 1 60001 120001 180001 240001 300001 rfl (by norm_num)
    (by rw [heff]; norm_num) (by rw [heff]; norm_num) (by rw [heff]; norm_num)
    (by rw [heff]; norm_num) (by rw [heff]; norm_num)

end Processor

namespace Compression

/-- `EnvironmentDetails` (`types.ts`), with the serialised form of the `Date`
kept as a string. -/
structure EnvDetails where
  workingDirectory : String
  visibleFiles : List String
  openTabs : List String
  activeTerminals : List String
  currentTime : String
  mode : String
  deriving Repr, DecidableEq

structure CompressedReference where
  type : String
  hash : String
  summary : String
  deriving Repr, DecidableEq

structure CompressionMetadata where
  references : List (String × CompressedReference)
  originalTokenCount : Nat
  compressedTokenCount : Nat
  deriving Repr, DecidableEq

/-- The `MessageContext` fields read and written by `ContextCompressionStage`;
`compression` is the `metadata.compression` slot. -/
structure CompCtx where
  message : String
  environment : EnvDetails
  customInstructions : Option String
  compression : Option CompressionMetadata
  deriving Repr, DecidableEq

/-- JSON string escaping (quote, backslash and the common control characters;
the remaining sub-0x20 `\u` escapes never occur in the inputs considered). -/
def escChar (c : Char) : List Char :=
  if c = '"' then ['\\', '"'] else if c = '\\' then ['\\', '\\']
  else if c = '\n' then ['\\', 'n'] else if c = '\r' then ['\\', 'r']
  else if c = '\t' then ['\\', 't'] else [c]

def jsonStr (s : String) : String :=
  "\"" ++ ⟨s.data.foldr (fun c acc => escChar c ++ acc) []⟩ ++ "\""

def jsonArr (l : List String) : String :=
  "[" ++ String.intercalate "," (l.map jsonStr) ++ "]"

/-- `JSON.stringify(environment)` with the `EnvironmentDetails` key order.
(The aggressive-compression path of the source rebuilds the object with
another key order; that only permutes the comma-separated segments, which
leaves `estimateTokens` unchanged, so one fixed order is used.) -/
def envJson (e : EnvDetails) : String :=
  "\x7b\"workingDirectory\":" ++ jsonStr e.workingDirectory ++
    ",\"visibleFiles\":" ++ jsonArr e.visibleFiles ++
    ",\"openTabs\":" ++ jsonArr e.openTabs ++
    ",\"activeTerminals\":" ++ jsonArr e.activeTerminals ++
    ",\"currentTime\":" ++ jsonStr e.currentTime ++
    ",\"mode\":" ++ jsonStr e.mode ++ "\x7d"

/-- `ContextCompressionStage.estimateContextTokens` (lines 336–342). -/
def estimateContextTokens (ctx : CompCtx) : Nat :=
  Tokens.estimateTokens ctx.message + Tokens.estimateTokens (envJson ctx.environment) +
    (match ctx.customInstructions with
      | some ci => Tokens.estimateTokens ci
      | none => 0)

/-- JavaScript `ToInt32`. -/
def toInt32 (n : ℤ) : ℤ := (n + 2 ^ 31) % 2 ^ 32 - 2 ^ 31

/-- One step of `hashContent`: `hash = (hash << 5) - hash + charCode` followed
by the 32-bit coercion `hash & hash`. -/
def hashStep (h : ℤ) (c : Char) : ℤ := toInt32 (toInt32 (h * 32) - h + c.toNat)

/-- `ContextCompressionStage.hashContent` (lines 603–611), before the base-36
rendering. -/
def hashContent (s : String) : ℤ := s.data.foldl hashStep 0

def b36digit (d : Nat) : Char :=
  if d < 10 then Char.ofNat (48 + d) else Char.ofNat (87 + d)

def natToB36Aux : Nat → Nat → List Char → List Char
  | 0, _, acc => acc
  | fuel + 1, n, acc =>
      if n = 0 then acc else natToB36Aux fuel (n / 36) (b36digit (n % 36) :: acc)

/-- `Number.prototype.toString(36)` for integers. -/
def intToB36 (i : ℤ) : String :=
  if i < 0 then "-" ++ (if i.natAbs = 0 then "0" else ⟨natToB36Aux i.natAbs i.natAbs []⟩)
  else if i.toNat = 0 then "0" else ⟨natToB36Aux i.toNat i.toNat []⟩

def hash36 (s : String) : String := intToB36 (hashContent s)

abbrev RefMap := List (String × CompressedReference)

/-- `createCompressedReference`: record the reference under its hash
(overwriting in place, appending otherwise) and return it. -/
def setRef (refs : RefMap) (h : String) (r : CompressedReference) : RefMap :=
  if (refs.lookup h).isSome then refs.map (fun kv => if kv.1 = h then (h, r) else kv)
  else refs ++ [(h, r)]

/-- Scan for the closing ``` ``` ``` of a lazily-matched code block: the content
up to the earliest closer, and the rest of the input after it. -/
def findCloser : List Char → Option (List Char × List Char)
  | [] => none
  | c :: t =>
      if Processor.headMatches "```".data (c :: t) then some ([], (c :: t).drop 3)
      else (findCloser t).map (fun p => (c :: p.1, p.2))

/-- The successive matches of ``/```[\s\S]*?```/g`` (the scanner advances one
character when no block starts at the current position, and past the block
otherwise; `fuel` bounds the scan). -/
def fcbAux : Nat → List Char → List (List Char)
  | 0, _ => []
  | fuel + 1, s =>
      if Processor.headMatches "```".data s then
        match findCloser (s.drop 3) with
        | some (content, rest) =>
            ("```".data ++ content ++ "```".data) :: fcbAux fuel rest
        | none => []
      else
        match s with
        | [] => []
        | _ :: t => fcbAux fuel t

def findCodeBlocks (s : List Char) : List (List Char) := fcbAux (s.length + 1) s

/-- JavaScript `String.prototype.replace` with a plain-string pattern: only the
*first* (leftmost) occurrence is replaced.  (The replacement strings used here
contain no `$` patterns, and the search strings are nonempty.) -/
def replaceFirstAux : List Char → List Char → List Char → List Char
  | [], _, _ => []
  | c :: rest, target, repl =>
      if Processor.headMatches target (c :: rest) then repl ++ (c :: rest).drop target.length
      else c :: replaceFirstAux rest target repl

def replaceFirst (s target repl : String) : String :=
  ⟨replaceFirstAux s.data target.data repl.data⟩

/-- The `codeBlocks.forEach` loop of `compressCodeBlocks` (lines 447–469):
`processed` maps a hash to the 30-character snippet of its first block. -/
def ccbGo : List (List Char) → List (String × String) → String → RefMap → String × RefMap
  | [], _, msg, refs => (msg, refs)
  | b :: rest, processed, msg, refs =>
      match processed.lookup (hash36 ⟨b⟩) with
      | some snippet =>
          ccbGo rest processed
            (replaceFirst msg ⟨b⟩ ("[REF:" ++ hash36 ⟨b⟩ ++ "]"))
            (setRef refs (hash36 ⟨b⟩)
              ⟨"code", hash36 ⟨b⟩, "Similar to code block at " ++ snippet⟩)
      | none =>
          ccbGo rest (processed ++ [(hash36 ⟨b⟩, (⟨b⟩ : String).take 30 ++ "...")]) msg refs

/-- `ContextCompressionStage.compressCodeBlocks`. -/
def compressCodeBlocks (message : String) (refs : RefMap) : String × RefMap :=
  ccbGo (findCodeBlocks message.data) [] message refs

end Compression

namespace Compression

/-- Try to match ``/\[[\w_-]+ Result:[^\]]+\]/`` at the head of `s`: the
matched text and the rest. -/
def toolOutputMatch : List Char → Option (List Char × List Char)
  | '[' :: rest =>
      if (rest.takeWhile (fun c => Tokens.isWordCh c || c = '-')).isEmpty then none
      else
        if Processor.headMatches " Result:".data
            (rest.drop (rest.takeWhile (fun c => Tokens.isWordCh c || c = '-')).length) then
          (fun rest3 =>
            if (rest3.takeWhile (fun c => !(c = ']'))).isEmpty then none
            else
              match rest3.drop (rest3.takeWhile (fun c => !(c = ']'))).length with
              | ']' :: tail =>
                  some ('[' :: rest.takeWhile (fun c => Tokens.isWordCh c || c = '-') ++
                    " Result:".data ++ rest3.takeWhile (fun c => !(c = ']')) ++ [']'], tail)
              | _ => none)
          (rest.drop ((rest.takeWhile (fun c => Tokens.isWordCh c || c = '-')).length + 8))
        else none
  | _ => none

/-- The successive matches of the tool-output regex (global flag). -/
def ftoAux : Nat → List Char → List (List Char)
  | 0, _ => []
  | fuel + 1, s =>
      match toolOutputMatch s with
      | some (m, rest) => m :: ftoAux fuel rest
      | none =>
          match s with
          | [] => []
          | _ :: t => ftoAux fuel t

def findToolOutputs (s : List Char) : List (List Char) := ftoAux (s.length + 1) s

/-- The `toolOutputs.forEach` loop of `compressToolOutputs` (lines 471–493). -/
def ctoGo : List (List Char) → List (String × String) → String → RefMap → String × RefMap
  | [], _, msg, refs => (msg, refs)
  | b :: rest, processed, msg, refs =>
      match processed.lookup (hash36 ⟨b⟩) with
      | some snippet =>
          ctoGo rest processed
            (replaceFirst msg ⟨b⟩ ("[REF:" ++ hash36 ⟨b⟩ ++ "]"))
            (setRef refs (hash36 ⟨b⟩)
              ⟨"tool", hash36 ⟨b⟩, "Similar to tool output at " ++ snippet⟩)
      | none =>
          ctoGo rest (processed ++ [(hash36 ⟨b⟩, (⟨b⟩ : String).take 30 ++ "...")]) msg refs

def compressToolOutputs (message : String) (refs : RefMap) : String × RefMap :=
  ctoGo (findToolOutputs message.data) [] message refs

def splitOnChar (sep : Char) : List Char → List (List Char)
  | [] => [[]]
  | c :: rest =>
      if c = sep then [] :: splitOnChar sep rest
      else
        match splitOnChar sep rest with
        | [] => [[c]]
        | w :: ws => (c :: w) :: ws

/-- JavaScript `String.prototype.trim()`. -/
def jsTrim (s : List Char) : List Char :=
  ((s.dropWhile Tokens.isWs).reverse.dropWhile Tokens.isWs).reverse

def joinNl : List (List Char) → List Char
  | [] => []
  | [l] => l
  | l :: ls => l ++ '\n' :: joinNl ls

/-- `lines.slice(i, i + 3).join("\n").trim()`. -/
def window3 (lines : List (List Char)) (i : Nat) : List Char :=
  jsTrim (joinNl ((lines.drop i).take 3))

def bumpKey (m : List (List Char × Nat)) (k : List Char) : List (List Char × Nat) :=
  if (m.lookup k).isSome then m.map (fun kv => if kv.1 = k then (kv.1, kv.2 + 1) else kv)
  else m ++ [(k, 1)]

/-- Replace every occurrence (left to right, non-overlapping). -/
def raAux : Nat → List Char → List Char → List Char → List Char
  | 0, s, _, _ => s
  | fuel + 1, s, target, repl =>
      match s with
      | [] => []
      | c :: rest =>
          if Processor.headMatches target (c :: rest) then
            repl ++ raAux fuel ((c :: rest).drop target.length) target repl
          else c :: raAux fuel rest target repl

/-- The `firstMatch` replacement callback: keep the first occurrence, replace
every later one. -/
def replaceAllButFirst : List Char → List Char → List Char → List Char
  | [], _, _ => []
  | c :: rest, target, repl =>
      if Processor.headMatches target (c :: rest) then
        target ++ raAux rest.length ((c :: rest).drop target.length) target repl
      else c :: replaceAllButFirst rest target repl

/-- The `Object.entries(patterns).forEach` loop of `compressRepeatedPatterns`. -/
def crpGo : List (List Char × Nat) → String → RefMap → String × RefMap
  | [], msg, refs => (msg, refs)
  | (block, count) :: rest, msg, refs =>
      if count > 1 ∧ block.length > 50 then
        crpGo rest
          ⟨replaceAllButFirst msg.data block ("[REF:" ++ hash36 ⟨block⟩ ++ "]").data⟩
          (setRef refs (hash36 ⟨block⟩)
            ⟨"tool", hash36 ⟨block⟩,
              "Repeated text block (" ++ toString count ++ " occurrences)"⟩)
      else crpGo rest msg refs

/-- `ContextCompressionStage.compressRepeatedPatterns` (lines 495–536): count
every trimmed nonempty 3-line window, then collapse later occurrences of
windows that repeat and exceed 50 characters. -/
def compressRepeatedPatterns (message : String) (refs : RefMap) : String × RefMap :=
  crpGo
    ((List.range ((splitOnChar '\n' message.data).length - 2)).foldl
      (fun m i =>
        if window3 (splitOnChar '\n' message.data) i ≠ [] then
          bumpKey m (window3 (splitOnChar '\n' message.data) i)
        else m)
      [])
    message refs

/-- `ContextCompressionStage.compressMessage` (lines 432–445). -/
def compressMessage (message : String) (refs : RefMap) : String × RefMap :=
  compressRepeatedPatterns (compressToolOutputs (compressCodeBlocks message refs).1
      (compressCodeBlocks message refs).2).1
    (compressToolOutputs (compressCodeBlocks message refs).1
      (compressCodeBlocks message refs).2).2

def isLowerHex (c : Char) : Bool := Tokens.isDigitCh c || ('a' ≤ c && c ≤ 'f')

/-- `ContextCompressionStage.getFilePattern` (lines 592–601). -/
def getFilePattern (file : String) : String :=
  String.intercalate "/"
    ((splitOnChar '/' file.data).map (fun part =>
      if !part.isEmpty && part.all Tokens.isDigitCh then "[n]"
      else if part.length ≥ 7 && part.all isLowerHex then "[hash]"
      else ⟨part⟩))

def groupByPattern (files : List String) : List (String × List String) :=
  files.foldl
    (fun m f =>
      if (m.lookup (getFilePattern f)).isSome then
        m.map (fun kv => if kv.1 = getFilePattern f then (kv.1, kv.2 ++ [f]) else kv)
      else m ++ [(getFilePattern f, [f])])
    []

/-- `ContextCompressionStage.compressFileList` (lines 557–590). -/
def compressFileList (files : List String) (refs : RefMap) (groupId : String) :
    List String × RefMap :=
  (groupByPattern files).foldl
    (fun st kv =>
      if kv.2.length > 2 then
        (st.1 ++ ["[REF:" ++ hash36 (groupId ++ "-" ++ kv.1) ++ "]"],
          setRef st.2 (hash36 (groupId ++ "-" ++ kv.1))
            ⟨"environment", hash36 (groupId ++ "-" ++ kv.1),
              toString kv.2.length ++ " files matching " ++ kv.1⟩)
      else (st.1 ++ kv.2, st.2))
    ([], refs)

/-- `ContextCompressionStage.compressEnvironment` (lines 538–555). -/
def compressEnvironment (env : EnvDetails) (refs : RefMap) : EnvDetails × RefMap :=
  (fun (vf : List String × RefMap) =>
    (fun (ot : List String × RefMap) =>
      ({ env with visibleFiles := vf.1, openTabs := ot.1 }, ot.2))
    (if !env.openTabs.isEmpty then compressFileList env.openTabs vf.2 "open-tabs"
      else (env.openTabs, vf.2)))
  (if !env.visibleFiles.isEmpty then compressFileList env.visibleFiles refs "visible-files"
    else (env.visibleFiles, refs))

/-- `ContextCompressionStage.compressContext` (lines 344–375). -/
def compressContext (ctx : CompCtx) (currentTokens : Nat) : CompCtx :=
  { ctx with
    message := (if ctx.message ≠ "" then (compressMessage ctx.message []).1 else ctx.message)
    environment :=
      (compressEnvironment ctx.environment
        (if ctx.message ≠ "" then (compressMessage ctx.message []).2 else [])).1
    compression := some
      { references :=
          (compressEnvironment ctx.environment
            (if ctx.message ≠ "" then (compressMessage ctx.message []).2 else [])).2
        originalTokenCount := currentTokens
        compressedTokenCount := estimateContextTokens
          { ctx with
            message :=
              (if ctx.message ≠ "" then (compressMessage ctx.message []).1 else ctx.message)
            environment :=
              (compressEnvironment ctx.environment
                (if ctx.message ≠ "" then (compressMessage ctx.message []).2 else [])).1 } } }

end Compression

namespace Compression

/-- `.replace(/\r\n/g, "\n")`. -/
def collapseCrlf : List Char → List Char
  | [] => []
  | '\r' :: '\n' :: rest => '\n' :: collapseCrlf rest
  | c :: rest => c :: collapseCrlf rest

/-- `.replace(/\n{3,}/g, "\n\n")`: collapse runs of 3+ newlines to two. -/
def collapseNl : Nat → List Char → List Char
  | 0, s => s
  | fuel + 1, s =>
      match s with
      | [] => []
      | '\n' :: rest =>
          (if 1 + (rest.takeWhile (fun c => c = '\n')).length ≥ 3 then ['\n', '\n']
            else '\n' :: rest.takeWhile (fun c => c = '\n')) ++
            collapseNl fuel (rest.dropWhile (fun c => c = '\n'))
      | c :: rest => c :: collapseNl fuel rest

/-- `.replace(/[ \t]+/g, " ")`. -/
def collapseSpace : Nat → List Char → List Char
  | 0, s => s
  | fuel + 1, s =>
      match s with
      | [] => []
      | c :: rest =>
          if c = ' ' ∨ c = '\t' then
            ' ' :: collapseSpace fuel (rest.dropWhile (fun d => d = ' ' ∨ d = '\t'))
          else c :: collapseSpace fuel rest

def endsWithDots (t : List Char) : Bool :=
  Processor.headMatches "...".data.reverse t.reverse

/-- The per-line cap of the aggressive tier (lines 404–413). -/
def capLine (line : List Char) : List Char :=
  if line.length > 200 then
    (fun t => if endsWithDots t then t else t ++ "...".data) (line.take 197)
  else line

/-- The message normalisation of the aggressive tier (lines 395–414). -/
def aggressiveMessage (message : String) : String :=
  ⟨joinNl ((splitOnChar '\n'
    (jsTrim (collapseSpace message.length (collapseNl message.length
      (collapseCrlf message.data))))).map capLine)⟩

/-- JavaScript `text.split(/\s+/)` (leading/trailing whitespace produces empty
fragments, interior runs do not). -/
def jsSplitWsAux : Nat → List Char → List Char → List (List Char)
  | 0, _, cur => [cur.reverse]
  | _ + 1, [], cur => [cur.reverse]
  | fuel + 1, c :: rest, cur =>
      if Tokens.isWs c then
        cur.reverse :: jsSplitWsAux fuel (rest.dropWhile Tokens.isWs) []
      else jsSplitWsAux fuel rest (c :: cur)

def jsSplitWs (s : List Char) : List (List Char) := jsSplitWsAux s.length s []

/-- The word loop of the stage's own `truncateToTokenLimit` (lines 624–639). -/
def ttlGo : List (List Char) → Nat → List Char → Nat → List Char
  | [], _, acc, _ => acc
  | w :: ws, tokenCount, acc, maxTokens =>
      if tokenCount + Tokens.estimateTokens ⟨w ++ [' ']⟩ > maxTokens then acc
      else ttlGo ws (tokenCount + Tokens.estimateTokens ⟨w ++ [' ']⟩)
        (acc ++ w ++ [' ']) maxTokens

def truncateToTokenLimit (text : String) (maxTokens : Nat) : String :=
  ⟨jsTrim (ttlGo (jsSplitWs text.data) 0 [] maxTokens)⟩

/-- `ContextCompressionStage.applyAggressiveCompression` (lines 377–430). -/
def applyAggressiveCompression (ctx : CompCtx) : CompCtx :=
  { ctx with
    environment :=
      { workingDirectory := ctx.environment.workingDirectory
        visibleFiles := []
        openTabs := []
        activeTerminals := []
        currentTime := ctx.environment.currentTime
        mode := ctx.environment.mode }
    message := if ctx.message ≠ "" then aggressiveMessage ctx.message else ctx.message
    customInstructions :=
      match ctx.customInstructions with
      | none => none
      | some ci =>
          if ci ≠ "" ∧ Tokens.estimateTokens ci > 2500 then
            some (truncateToTokenLimit ci 2500)
          else some ci }

/-- `ContextCompressionStage.process` (lines 312–334): soft compression above
60 % of the 200 000-token model limit (the double product
`200000 * 0.6` is exactly `120000.0`), the aggressive tier above the 190 000
hard limit, and a thrown `Context too large` error when even that leaves the
estimate above the model limit. -/
def process (ctx : CompCtx) : Except String CompCtx :=
  (fun (c1 : CompCtx) =>
    (fun (c2 : CompCtx) =>
      if estimateContextTokens c2 > 200000 then
        Except.error ("Context too large (" ++ toString (estimateContextTokens c2) ++
          " tokens) even after compression")
      else Except.ok c2)
    (if estimateContextTokens c1 > 190000 then applyAggressiveCompression c1 else c1))
  (if estimateContextTokens ctx > 120000 then compressContext ctx (estimateContextTokens ctx)
    else ctx)

end Compression

namespace Compression

set_option maxRecDepth 10000 in
/-- **C8 (divergence).**  On a message whose two fenced code blocks are
identical, the soft tier collapses the *first* occurrence into the
`[REF:<hash>]` token — `String.replace` rewrites the leftmost match — and
leaves the *second* occurrence intact, while the backward-pointing reference
summary ("Similar to code block at …") shows the earlier block was the one
meant to survive. -/
theorem first_code_block_occurrence_collapsed :
    (compressCodeBlocks "```a``` ```a```" []).1 = "[REF:zeq3zz] ```a```" ∧
      (compressCodeBlocks "```a``` ```a```" []).2 =
        [("zeq3zz",
          ⟨"code", "zeq3zz", "Similar to code block at ```a```..."⟩)] := by
  constructor
  · rfl
  · rfl

/-- **C7 (amended).**  At or below the 60 % compression threshold (120 000
estimated tokens) `process` returns the context unchanged, so the token
estimate is trivially preserved. -/
theorem process_identity_below_threshold (ctx : CompCtx)
    (h : estimateContextTokens ctx ≤ 120000) :
    process ctx = Except.ok ctx := by
  simp only [process]
  rw [if_neg (by omega : ¬ estimateContextTokens ctx > 120000),
    if_neg (by omega : ¬ estimateContextTokens ctx > 190000),
    if_neg (by omega : ¬ estimateContextTokens ctx > 200000)]

def smallEnv : EnvDetails := ⟨"/w", [], [], [], "t", "code"⟩

set_option maxRecDepth 10000 in
/-- Witness for C7 (amended) at a small concrete context. -/
theorem process_identity_below_threshold_witness :
    estimateContextTokens ⟨"hello world", smallEnv, none, none⟩ ≤ 120000 ∧
      process ⟨"hello world", smallEnv, none, none⟩ =
        Except.ok ⟨"hello world", smallEnv, none, none⟩ :=
  ⟨by decide, process_identity_below_threshold _ (by decide)⟩

/-- 300 003 consecutive digits: a custom-instructions payload whose estimate
(120 004 tokens) puts the context just over the soft-compression threshold. -/
def bigCI : String := ⟨List.replicate 300003 '1'⟩

def bigCtx : CompCtx := ⟨"```i``` ```i```", smallEnv, some bigCI, none⟩

theorem countRunsAux_replicate_one :
    ∀ n : Nat, Tokens.countRunsAux (fun c => !Tokens.isWs c) true (List.replicate n '1') = 0 := by
  intro n
  induction n with
  | zero => rfl
  | succ m ih =>
      rw [List.replicate_succ]
      show (if (fun c => !Tokens.isWs c) '1' && !true then 1 else 0) +
        Tokens.countRunsAux (fun c => !Tokens.isWs c) ((fun c => !Tokens.isWs c) '1')
          (List.replicate m '1') = 0
      simpa using ih

theorem numRunsAux_replicate_one :
    ∀ (n cur : Nat), Tokens.numRunsAux cur (List.replicate n '1') = Tokens.numCost (cur + n) := by
  intro n
  induction n with
  | zero => intro cur; simp [Tokens.numRunsAux]
  | succ m ih =>
      intro cur
      rw [List.replicate_succ]
      show (if Tokens.isDigitCh '1' then Tokens.numRunsAux (cur + 1) (List.replicate m '1')
        else Tokens.numCost cur + Tokens.numRunsAux 0 (List.replicate m '1')) =
          Tokens.numCost (cur + (m + 1))
      rw [if_pos (by decide), ih (cur + 1)]
      congr 1
      omega

theorem kwHere_one (rest : List Char) :
    Tokens.kwHere Tokens.jsKeywords ('1' :: rest) = 0 := rfl

theorem kwAux_replicate_one :
    ∀ (n : Nat) (prev : Bool),
      Tokens.kwAux Tokens.jsKeywords prev (List.replicate n '1') = 0 := by
  intro n
  induction n with
  | zero => intro prev; rfl
  | succ m ih =>
      intro prev
      rw [List.replicate_succ]
      show (if !prev then Tokens.kwHere Tokens.jsKeywords ('1' :: List.replicate m '1') else 0) +
        Tokens.kwAux Tokens.jsKeywords (Tokens.isWordCh '1') (List.replicate m '1') = 0
      rw [kwHere_one, ih]
      simp

theorem bigCI_data : bigCI.data = List.replicate 300003 '1' := rfl

theorem bigCI_ne_nil : bigCI.data ≠ [] := by
  rw [bigCI_data]
  intro h
  have h2 := congrArg List.length h
  rw [List.length_replicate] at h2
  exact absurd h2 (by norm_num)

theorem countRunsAux_cons (p : Char → Bool) (prev : Bool) (c : Char) (cs : List Char) :
    Tokens.countRunsAux p prev (c :: cs) =
      (if p c && !prev then 1 else 0) + Tokens.countRunsAux p (p c) cs := rfl

theorem numRunsAux_cons (cur : Nat) (c : Char) (cs : List Char) :
    Tokens.numRunsAux cur (c :: cs) =
      if Tokens.isDigitCh c then Tokens.numRunsAux (cur + 1) cs
      else Tokens.numCost cur + Tokens.numRunsAux 0 cs := rfl

theorem kwAux_cons (ks : List (List Char)) (prevWord : Bool) (c : Char) (cs : List Char) :
    Tokens.kwAux ks prevWord (c :: cs) =
      (if !prevWord then Tokens.kwHere ks (c :: cs) else 0) +
        Tokens.kwAux ks (Tokens.isWordCh c) cs := rfl

theorem countP_special_replicate_one (n : Nat) :
    (List.replicate n '1').countP (fun c => Tokens.isSpecialCh c) = 0 := by
  induction n with
  | zero => rfl
  | succ m ih =>
      rw [List.replicate_succ, List.countP_cons, ih]
      norm_num
      decide

/-- The raw scaled estimate of a run of `n + 1` digits: one word
(13 scaled tokens) plus one digit run (`10 * ceil((n+1)/2.5)` scaled). -/
theorem rawEstimate10_replicate_one (n : Nat) :
    Tokens.rawEstimate10 (List.replicate (n + 1) '1') = 13 + 10 * Tokens.numCost (n + 1) := by
  unfold Tokens.rawEstimate10 Tokens.countRuns Tokens.numbersCost Tokens.keywordCount
  rw [List.replicate_succ, countRunsAux_cons, numRunsAux_cons, kwAux_cons, List.countP_cons,
    countP_special_replicate_one]
  have hw : (!Tokens.isWs '1') = true := by decide
  have hd : Tokens.isDigitCh '1' = true := by decide
  have hsp : Tokens.isSpecialCh '1' = false := by decide
  simp only [hw, hd, hsp, Bool.not_false, Bool.and_true, if_true, Bool.false_eq_true, if_false,
    countRunsAux_replicate_one, numRunsAux_replicate_one, kwHere_one, kwAux_replicate_one]
  simp only [Tokens.numCost]
  omega

theorem estimateTokens_bigCI : Tokens.estimateTokens bigCI = 120004 := by
  unfold Tokens.estimateTokens
  rw [if_neg bigCI_ne_nil, bigCI_data, show (300003 : Nat) = 300002 + 1 from rfl,
    rawEstimate10_replicate_one]
  norm_num [Tokens.numCost]

/-- When the estimate is above the soft threshold and the soft-compressed
context stays at or below the 190 000 hard limit, `process` returns exactly
the soft-compressed context. -/
theorem process_soft_tier (ctx : CompCtx)
    (h1 : estimateContextTokens ctx > 120000)
    (h2 : estimateContextTokens (compressContext ctx (estimateContextTokens ctx)) ≤ 190000) :
    process ctx = Except.ok (compressContext ctx (estimateContextTokens ctx)) := by
  simp only [process]
  rw [if_pos h1,
    if_neg (by omega : ¬ estimateContextTokens
      (compressContext ctx (estimateContextTokens ctx)) > 190000),
    if_neg (by omega : ¬ estimateContextTokens
      (compressContext ctx (estimateContextTokens ctx)) > 200000)]

set_option maxRecDepth 10000 in
theorem compressContext_bigCtx_message :
    (compressContext bigCtx (estimateContextTokens bigCtx)).message =
    "[REF:zev7w7] ```i```" := rfl

set_option maxRecDepth 10000 in
theorem compressContext_bigCtx_environment :
    (compressContext bigCtx (estimateContextTokens bigCtx)).environment =
    smallEnv := rfl

set_option maxRecDepth 10000 in
theorem compressContext_bigCtx_customInstructions :
    (compressContext bigCtx (estimateContextTokens bigCtx)).customInstructions =
    some bigCI := rfl

theorem bigCtx_message : bigCtx.message = "```i``` ```i```" := rfl
theorem bigCtx_environment : bigCtx.environment = smallEnv := rfl
theorem bigCtx_customInstructions : bigCtx.customInstructions = some bigCI := rfl

/-- On a context whose `customInstructions` is present, the token estimate is
the sum of the message, environment-JSON and custom-instructions estimates. -/
theorem estCtx_proj (ctx : CompCtx) (ci : String)
    (hc : ctx.customInstructions = some ci) :
    estimateContextTokens ctx =
      Tokens.estimateTokens ctx.message +
        Tokens.estimateTokens (envJson ctx.environment) + Tokens.estimateTokens ci := by
  unfold estimateContextTokens
  rw [hc]

set_option maxRecDepth 10000 in
theorem estimateTokens_smallEnvJson : Tokens.estimateTokens (envJson smallEnv) = 21 := by decide

set_option maxRecDepth 10000 in
theorem estimateTokens_msg_pair : Tokens.estimateTokens "```i``` ```i```" = 9 ∧
    Tokens.estimateTokens "[REF:zev7w7] ```i```" = 10 := by constructor <;> decide

theorem estimateContextTokens_bigCtx : estimateContextTokens bigCtx = 120034 := by
  rw [estCtx_proj bigCtx bigCI bigCtx_customInstructions, bigCtx_message, bigCtx_environment,
    estimateTokens_msg_pair.1, estimateTokens_smallEnvJson, estimateTokens_bigCI]

theorem estimateContextTokens_bigCtx_compressed :
    estimateContextTokens (compressContext bigCtx (estimateContextTokens bigCtx)) = 120035 := by
  rw [estCtx_proj (compressContext bigCtx (estimateContextTokens bigCtx)) bigCI
      compressContext_bigCtx_customInstructions,
    compressContext_bigCtx_message, compressContext_bigCtx_environment,
    estimateTokens_msg_pair.2, estimateTokens_smallEnvJson, estimateTokens_bigCI]

/-- **C7 (divergence).**  Soft compression is not estimate-non-increasing: on
`bigCtx` — message with two identical inline code blocks (estimate 9) plus a
300 003-digit custom-instructions payload that pushes the total over the
120 000 threshold — `process` applies the soft tier, which rewrites the
message to `"[REF:zev7w7] ```i```"` (estimate 10), so the compressed context's
estimate (120 035) strictly exceeds the original estimate (120 034). -/
theorem soft_compression_grows_estimate_counterexample :
    process bigCtx = Except.ok (compressContext bigCtx (estimateContextTokens bigCtx)) ∧
      estimateContextTokens bigCtx <
        estimateContextTokens (compressContext bigCtx (estimateContextTokens bigCtx)) := by
  refine ⟨process_soft_tier bigCtx ?_ ?_, ?_⟩
  · rw [estimateContextTokens_bigCtx]
    norm_num
  · rw [estimateContextTokens_bigCtx_compressed]
    norm_num
  · rw [estimateContextTokens_bigCtx_compressed, estimateContextTokens_bigCtx]
    norm_num

end Compression
